import Mathlib

/-! # VL53L5CX ULD examples: ranging session call discipline and results indexing

Shallow embedding of `example3` (ranging modes), `example5` (multiple targets
per zone) and `example6` (I2C and RAM optimization) of the VL53L5CX ULD driver
examples, together with the platform constants of `debug.h`.

The examples drive the sensor through the functions declared in
`vl53l5cx_api.h`.  Their bodies are not part of the examples, so the examples
are embedded over an arbitrary `Driver`: a family of state transformers, one
per API function, over an arbitrary world state `σ` (the `Dev` structure, the
sensor and the bus).  Every call returns a status, and `vl53l5cx_is_alive` and
`vl53l5cx_check_data_ready` store a byte through their pointer argument at
every call.  `uint8_t` statuses and flags are natural numbers; the only
arithmetic the examples do on them is a comparison with zero, and the loop
counter `loop` is incremented modulo 256.

A polling loop need not end, so the loops are run on a budget of passes
(`fuel`), and a run whose budget is used up ends as `Flow.spin`.

The last part models the device session of the specification (the driver
behind `vl53l5cx_api.h`), and runs the examples on it.
-/

namespace VL53L5CX

/-! ## Platform constants (`debug.h`) -/

/-- Number of target slots per zone, `#define VL53L5CX_NB_TARGET_PER_ZONE 1`. -/
def VL53L5CX_NB_TARGET_PER_ZONE : Nat := 1

/-! ## Results indexing (`Example_5_multiple_targets_per_zone.c`, lines 109-130) -/

/-- Index of target slot `j` of zone `i`:
`uint16_t idx = VL53L5CX_NB_TARGET_PER_ZONE * i + j;` with `K` the value of the
macro.  The sum is computed in `int` and stored in a `uint16_t`. -/
def example5_idx (K i j : Nat) : Nat := (K * i + j) % 65536

/-- Indices read while printing one frame, in the order of the two nested loops
`for(i = 0; i < 16; i++)` and `for(j = 0; j < VL53L5CX_NB_TARGET_PER_ZONE; j++)`. -/
def example5_frame_indices (K : Nat) : List Nat :=
  (List.range 16).flatMap (fun i => (List.range K).map (fun j => example5_idx K i j))

/-- Index used by `example3` and `example6` for zone `i`:
`Results.target_status[VL53L5CX_NB_TARGET_PER_ZONE*i]`. -/
def example3_idx (K i : Nat) : Nat := K * i

/-! ## The driver interface used by the examples (`vl53l5cx_api.h`) -/

/-- The two ranging modes passed to `vl53l5cx_set_ranging_mode`:
`VL53L5CX_RANGING_MODE_CONTINUOUS` and `VL53L5CX_RANGING_MODE_AUTONOMOUS`. -/
inductive RangingMode where
  | Continuous
  | Autonomous
  deriving DecidableEq, Repr

/-- What one driver call gives back: the world after the call, the returned
`uint8_t` status, and the byte stored through the pointer argument (`isAlive`
for `vl53l5cx_is_alive`, `isReady` for `vl53l5cx_check_data_ready`; unused by
the other calls). -/
structure Reply (σ : Type) where
  dev : σ
  status : Nat
  out : Nat

/-- The API and platform functions called by the examples, as transformers of
the world state `σ`. -/
structure Driver (σ : Type) where
  vl53l5cx_is_alive : σ → Reply σ
  vl53l5cx_init : σ → Reply σ
  vl53l5cx_set_ranging_mode : RangingMode → σ → Reply σ
  vl53l5cx_set_integration_time_ms : Nat → σ → Reply σ
  vl53l5cx_start_ranging : σ → Reply σ
  vl53l5cx_check_data_ready : σ → Reply σ
  vl53l5cx_get_ranging_data : σ → Reply σ
  vl53l5cx_stop_ranging : σ → Reply σ
  VL53L5CX_WaitMs : Nat → σ → Reply σ

/-- How a block of an example ends: control falls through to the next
statement, the function returns a status, or the polling loop is still running
when the iteration budget is used up. -/
inductive Flow where
  | next
  | ret (status : Nat)
  | spin
  deriving DecidableEq, Repr

/-! ## The polling loop (identical in `example3`, `example5` and `example6`) -/

/-- One pass through the body of `while(loop < 10)`:
`vl53l5cx_check_data_ready`; if `isReady`, `vl53l5cx_get_ranging_data` (its
status is dropped) and `loop++`; then `VL53L5CX_WaitMs(&(Dev.platform), 5)`.
Returns the world and the new value of the `uint8_t` counter `loop`. -/
def pollOnce {σ : Type} (d : Driver σ) (loop : Nat) (s : σ) : σ × Nat :=
  let r := d.vl53l5cx_check_data_ready s
  if r.out ≠ 0 then
    let g := d.vl53l5cx_get_ranging_data r.dev
    ((d.VL53L5CX_WaitMs 5 g.dev).dev, (loop + 1) % 256)
  else
    ((d.VL53L5CX_WaitMs 5 r.dev).dev, loop)

/-- The loop `while(loop < 10) { ... }` run for at most `fuel` passes.  The
result is the world and the value of `loop` when the condition became false or
the budget ran out; `loop < 10` in the result means the C loop is still
running. -/
def rangingLoop {σ : Type} (d : Driver σ) : Nat → Nat → σ → σ × Nat
  | 0, loop, s => (s, loop)
  | fuel + 1, loop, s =>
    if loop < 10 then
      rangingLoop d fuel (pollOnce d loop s).2 (pollOnce d loop s).1
    else (s, loop)

/-! ## `Example_3_ranging_modes.c` -/

/-- Lines 86-130 of `example3`: select autonomous mode (return on failure), set
the integration time to 20 ms, start, poll until 10 frames, stop. -/
def example3_autonomous {σ : Type} (d : Driver σ) (fuel : Nat) (s : σ) : σ × Flow :=
  let m := d.vl53l5cx_set_ranging_mode RangingMode.Autonomous s
  if m.status ≠ 0 then (m.dev, Flow.ret m.status)
  else
    let it := d.vl53l5cx_set_integration_time_ms 20 m.dev
    let st := d.vl53l5cx_start_ranging it.dev
    let l := rangingLoop d fuel 0 st.dev
    if l.2 < 10 then (l.1, Flow.spin)
    else ((d.vl53l5cx_stop_ranging l.1).dev, Flow.next)

/-- Lines 140-185 of `example3`: select continuous mode (return on failure),
start, poll until 10 frames, stop, and return the status of that stop. -/
def example3_continuous {σ : Type} (d : Driver σ) (fuel : Nat) (s : σ) : σ × Flow :=
  let m := d.vl53l5cx_set_ranging_mode RangingMode.Continuous s
  if m.status ≠ 0 then (m.dev, Flow.ret m.status)
  else
    let st := d.vl53l5cx_start_ranging m.dev
    let l := rangingLoop d fuel 0 st.dev
    if l.2 < 10 then (l.1, Flow.spin)
    else
      let sp := d.vl53l5cx_stop_ranging l.1
      (sp.dev, Flow.ret sp.status)

/-- The function `example3`: liveness check, init, the autonomous phase, the
continuous phase.  Each polling loop gets `fuel` passes.  The `printf` calls
are left out; the entries of `Results` they read are at `example3_idx`.  The
`uint8_t` status is returned as an `int` of the same value. -/
def example3 {σ : Type} (d : Driver σ) (fuel : Nat) (s : σ) : σ × Flow :=
  let a := d.vl53l5cx_is_alive s
  if a.out = 0 ∨ a.status ≠ 0 then (a.dev, Flow.ret a.status)
  else
    let i := d.vl53l5cx_init a.dev
    if i.status ≠ 0 then (i.dev, Flow.ret i.status)
    else
      let p := example3_autonomous d fuel i.dev
      match p.2 with
      | Flow.next => example3_continuous d fuel p.1
      | Flow.ret status => (p.1, Flow.ret status)
      | Flow.spin => (p.1, Flow.spin)

/-! ## `Example_5_multiple_targets_per_zone.c` -/

/-- The function `example5`: liveness check, init, start, poll until 10 frames,
stop, and return the status of the stop.  The `printf` calls are left out; the
entries of `Results` they read for a frame are at `example5_frame_indices`. -/
def example5 {σ : Type} (d : Driver σ) (fuel : Nat) (s : σ) : σ × Flow :=
  let a := d.vl53l5cx_is_alive s
  if a.out = 0 ∨ a.status ≠ 0 then (a.dev, Flow.ret a.status)
  else
    let i := d.vl53l5cx_init a.dev
    if i.status ≠ 0 then (i.dev, Flow.ret i.status)
    else
      let st := d.vl53l5cx_start_ranging i.dev
      let l := rangingLoop d fuel 0 st.dev
      if l.2 < 10 then (l.1, Flow.spin)
      else
        let sp := d.vl53l5cx_stop_ranging l.1
        (sp.dev, Flow.ret sp.status)

/-! ## `Example_6_I2C_and_RAM_optimization.c` -/

/-- The function `example6`: liveness check, init, start, poll until 10 frames,
stop, and return the status of the stop.  The `printf` calls are left out; the
entries of `Results` they read are at `example3_idx`. -/
def example6 {σ : Type} (d : Driver σ) (fuel : Nat) (s : σ) : σ × Flow :=
  let a := d.vl53l5cx_is_alive s
  if a.out = 0 ∨ a.status ≠ 0 then (a.dev, Flow.ret a.status)
  else
    let i := d.vl53l5cx_init a.dev
    if i.status ≠ 0 then (i.dev, Flow.ret i.status)
    else
      let st := d.vl53l5cx_start_ranging i.dev
      let l := rangingLoop d fuel 0 st.dev
      if l.2 < 10 then (l.1, Flow.spin)
      else
        let sp := d.vl53l5cx_stop_ranging l.1
        (sp.dev, Flow.ret sp.status)

/-! ## Recording the calls an example makes -/

/-- The driver entry points. -/
inductive Call where
  | is_alive
  | init
  | set_ranging_mode (mode : RangingMode)
  | set_integration_time_ms (ms : Nat)
  | start_ranging
  | check_data_ready
  | get_ranging_data
  | stop_ranging
  | WaitMs (ms : Nat)
  deriving DecidableEq, Repr

/-- One recorded call: which entry point, the status it returned, the byte it
stored through its pointer argument, and the world it left. -/
structure Event (σ : Type) where
  call : Call
  status : Nat
  out : Nat
  dev : σ

/-- The record of call `c` answered by `r`. -/
def Event.of {σ : Type} (c : Call) (r : Reply σ) : Event σ :=
  { call := c, status := r.status, out := r.out, dev := r.dev }

/-- Append the record of a call to the log and pass its reply on. -/
def record {σ : Type} (c : Call) (log : List (Event σ)) (r : Reply σ) :
    Reply (σ × List (Event σ)) :=
  { dev := (r.dev, log ++ [Event.of c r])
    status := r.status
    out := r.out }

/-- The driver `d` with every call logged, in call order. -/
def traced {σ : Type} (d : Driver σ) : Driver (σ × List (Event σ)) where
  vl53l5cx_is_alive x := record Call.is_alive x.2 (d.vl53l5cx_is_alive x.1)
  vl53l5cx_init x := record Call.init x.2 (d.vl53l5cx_init x.1)
  vl53l5cx_set_ranging_mode m x :=
    record (Call.set_ranging_mode m) x.2 (d.vl53l5cx_set_ranging_mode m x.1)
  vl53l5cx_set_integration_time_ms ms x :=
    record (Call.set_integration_time_ms ms) x.2 (d.vl53l5cx_set_integration_time_ms ms x.1)
  vl53l5cx_start_ranging x := record Call.start_ranging x.2 (d.vl53l5cx_start_ranging x.1)
  vl53l5cx_check_data_ready x :=
    record Call.check_data_ready x.2 (d.vl53l5cx_check_data_ready x.1)
  vl53l5cx_get_ranging_data x :=
    record Call.get_ranging_data x.2 (d.vl53l5cx_get_ranging_data x.1)
  vl53l5cx_stop_ranging x := record Call.stop_ranging x.2 (d.vl53l5cx_stop_ranging x.1)
  VL53L5CX_WaitMs ms x := record (Call.WaitMs ms) x.2 (d.VL53L5CX_WaitMs ms x.1)

/-- The calls of a log, without their results. -/
def calls {σ : Type} (log : List (Event σ)) : List Call := log.map (fun e => e.call)

/-! ## A driver that answers from fixed streams -/

/-- Answers of the driver, one stream per entry point: the answer to the
`n`-th call (from 0) of that entry point.  For `is_alive` and
`check_data_ready` the pair is `(out, status)`. -/
structure Oracle where
  is_alive : Nat → Nat × Nat
  init : Nat → Nat
  set_ranging_mode : Nat → Nat
  set_integration_time_ms : Nat → Nat
  start_ranging : Nat → Nat
  check_data_ready : Nat → Nat × Nat
  get_ranging_data : Nat → Nat
  stop_ranging : Nat → Nat
  WaitMs : Nat → Nat

/-- How many times each entry point has been called so far. -/
structure Counts where
  is_alive : Nat
  init : Nat
  set_ranging_mode : Nat
  set_integration_time_ms : Nat
  start_ranging : Nat
  check_data_ready : Nat
  get_ranging_data : Nat
  stop_ranging : Nat
  WaitMs : Nat
  deriving DecidableEq, Repr

/-- No call made yet. -/
def Counts.zero : Counts := ⟨0, 0, 0, 0, 0, 0, 0, 0, 0⟩

/-- The driver whose `n`-th call of an entry point returns the `n`-th answer of
the corresponding stream of `o`. -/
def oracleDriver (o : Oracle) : Driver Counts where
  vl53l5cx_is_alive c :=
    ⟨{ c with is_alive := c.is_alive + 1 }, (o.is_alive c.is_alive).2, (o.is_alive c.is_alive).1⟩
  vl53l5cx_init c := ⟨{ c with init := c.init + 1 }, o.init c.init, 0⟩
  vl53l5cx_set_ranging_mode _ c :=
    ⟨{ c with set_ranging_mode := c.set_ranging_mode + 1 }, o.set_ranging_mode c.set_ranging_mode, 0⟩
  vl53l5cx_set_integration_time_ms _ c :=
    ⟨{ c with set_integration_time_ms := c.set_integration_time_ms + 1 },
      o.set_integration_time_ms c.set_integration_time_ms, 0⟩
  vl53l5cx_start_ranging c :=
    ⟨{ c with start_ranging := c.start_ranging + 1 }, o.start_ranging c.start_ranging, 0⟩
  vl53l5cx_check_data_ready c :=
    ⟨{ c with check_data_ready := c.check_data_ready + 1 },
      (o.check_data_ready c.check_data_ready).2, (o.check_data_ready c.check_data_ready).1⟩
  vl53l5cx_get_ranging_data c :=
    ⟨{ c with get_ranging_data := c.get_ranging_data + 1 }, o.get_ranging_data c.get_ranging_data, 0⟩
  vl53l5cx_stop_ranging c :=
    ⟨{ c with stop_ranging := c.stop_ranging + 1 }, o.stop_ranging c.stop_ranging, 0⟩
  VL53L5CX_WaitMs _ c := ⟨{ c with WaitMs := c.WaitMs + 1 }, o.WaitMs c.WaitMs, 0⟩

/-! ## Call discipline of a log -/

/-- What the call discipline remembers of the calls made so far. -/
structure Monitor where
  /-- The last `is_alive` stored a non-zero `isAlive` and returned status 0. -/
  aliveOk : Bool
  /-- The last `init` returned status 0. -/
  inited : Bool
  /-- A `start_ranging` has been called and no `stop_ranging` since. -/
  active : Bool
  /-- The call just made was a `check_data_ready` that stored a non-zero `isReady`. -/
  ready : Bool
  deriving DecidableEq, Repr

/-- Nothing called yet. -/
def Monitor.start : Monitor := ⟨false, false, false, false⟩

/-- One call checked against the discipline; `none` when the call is not
allowed in the current situation.
* `init` needs a preceding `is_alive` that reported alive with status 0;
* `start_ranging` needs a preceding `init` that returned 0 and no ranging session open;
* `set_ranging_mode` and `set_integration_time_ms` need no ranging session open;
* `get_ranging_data` needs the call just before it to be a `check_data_ready`
  that reported ready;
* `stop_ranging` closes the ranging session opened by the last `start_ranging`. -/
def Monitor.step {σ : Type} (m : Monitor) (e : Event σ) : Option Monitor :=
  match e.call with
  | Call.is_alive =>
    some { m with aliveOk := decide (e.out ≠ 0 ∧ e.status = 0), ready := false }
  | Call.init =>
    if m.aliveOk then some { m with inited := decide (e.status = 0), ready := false } else none
  | Call.set_ranging_mode _ => if m.active then none else some { m with ready := false }
  | Call.set_integration_time_ms _ => if m.active then none else some { m with ready := false }
  | Call.start_ranging =>
    if m.inited && !m.active then some { m with active := true, ready := false } else none
  | Call.check_data_ready => some { m with ready := decide (e.out ≠ 0) }
  | Call.get_ranging_data => if m.ready then some { m with ready := false } else none
  | Call.stop_ranging => if m.active then some { m with active := false, ready := false } else none
  | Call.WaitMs _ => some { m with ready := false }

/-- The discipline run over a log, from situation `m`; `none` as soon as one
call is not allowed. -/
def Monitor.run {σ : Type} (m : Monitor) (log : List (Event σ)) : Option Monitor :=
  log.foldlM Monitor.step m

/-- One call checked against the fetch rule of the polling loop.  The state
says whether a fetch is owed: the call just made was a `check_data_ready` that
reported ready.  A `get_ranging_data` is allowed only when a fetch is owed, and
every other call only when none is. -/
def fetchStep {σ : Type} (owed : Bool) (e : Event σ) : Option Bool :=
  match e.call with
  | Call.get_ranging_data => if owed then some false else none
  | Call.check_data_ready => if owed then none else some (decide (e.out ≠ 0))
  | _ => if owed then none else some false

/-- A log obeys the fetch rule: `get_ranging_data` is called directly after
every `check_data_ready` that reported ready, and nowhere else. -/
def fetchesFollowReady {σ : Type} (log : List (Event σ)) : Bool :=
  log.foldlM fetchStep false == some false

/-- Number of `ready` answers among the `n` answers of `check_data_ready`
from the `k`-th on. -/
def readyCount (o : Oracle) (k n : Nat) : Nat :=
  ((List.range' k n).filter (fun i => decide ((o.check_data_ready i).1 ≠ 0))).length

/-! ## The device session -/

/-- Modelled from the spec: the status codes of the session (their values are
not in the sources).  "zero means success, non-zero is sensor/transport-specific
and must be treated as opaque": a protocol-state violation is reported with a
code `protocol`, of which only `protocol ≠ 0` is known. -/
structure StatusCodes where
  protocol : Nat
  protocol_ne_zero : protocol ≠ 0

/-- Modelled from the spec: what the transport (`VL53L5CX_RdByte` of `debug.h`,
whose body is not in the sources) gives back for a register read: `status` is 0
on success and the pass-through code of the fault otherwise; `data` is the byte
read. -/
structure Bus where
  status : Nat
  data : Nat
  deriving DecidableEq, Repr

/-- Modelled from the spec: the Device Session of section 3 (the
`VL53L5CX_Configuration` of `vl53l5cx_api.h`, not in the sources): liveness
flag, initialized flag, ranging mode, integration time (present only once set
in autonomous mode), whether ranging is active, frame counter `streamcount`. -/
structure Session where
  alive : Bool
  initialized : Bool
  mode : RangingMode
  integration_time : Option Nat
  ranging : Bool
  streamcount : Nat
  deriving DecidableEq, Repr

namespace Session

/-- Modelled from the spec: a session as constructed, "in an uninitialized
state". -/
def new : Session :=
  { alive := false, initialized := false, mode := RangingMode.Continuous,
    integration_time := none, ranging := false, streamcount := 0 }

/-- Modelled from the spec: `is_alive` (`vl53l5cx_is_alive`, not in the
sources) "issues a read of a known identity register; returns false without
error if the register mismatches, returns an error status only on a transport
fault".  `identity` is the expected register value, `bus` the transport's
answer to the read. -/
def is_alive (identity : Nat) (s : Session) (bus : Bus) : Reply Session :=
  if bus.status ≠ 0 then ⟨{ s with alive := false }, bus.status, 0⟩
  else if bus.data = identity then ⟨{ s with alive := true }, 0, 1⟩
  else ⟨{ s with alive := false }, 0, 0⟩

/-- Modelled from the spec: `init` (`vl53l5cx_init`, not in the sources)
"fails fast on any transport error, leaving initialized = false"; `transport` is
0 when no step of the bring-up met a fault and the code of the first fault
otherwise.  On success the session is initialized in the default mode,
continuous, in which no integration time is set; the frame counter is left
alone. -/
def init (s : Session) (transport : Nat) : Reply Session :=
  if transport ≠ 0 then ⟨{ s with initialized := false }, transport, 0⟩
  else
    ⟨{ s with initialized := true, mode := RangingMode.Continuous, integration_time := none },
      0, 0⟩

/-- Modelled from the spec: `set_ranging_mode` (`vl53l5cx_set_ranging_mode`,
not in the sources) "fails if ranging is currently active (must stop first).
Switching to Continuous clears/ignores any previously set integration time":
the integration time is cleared. -/
def set_ranging_mode (codes : StatusCodes) (mode : RangingMode) (s : Session) : Reply Session :=
  if s.ranging then ⟨s, codes.protocol, 0⟩
  else
    ⟨{ s with mode := mode,
              integration_time :=
                if mode = RangingMode.Continuous then none else s.integration_time }, 0, 0⟩

/-- Modelled from the spec: `set_integration_time`
(`vl53l5cx_set_integration_time_ms`, not in the sources) "fails if mode ≠
Autonomous, or if ranging is active". -/
def set_integration_time (codes : StatusCodes) (ms : Nat) (s : Session) : Reply Session :=
  if s.mode ≠ RangingMode.Autonomous ∨ s.ranging then ⟨s, codes.protocol, 0⟩
  else ⟨{ s with integration_time := some ms }, 0, 0⟩

/-- Modelled from the spec: `start` (`vl53l5cx_start_ranging`, not in the
sources) "fails if not initialized; transitions to ranging active; resets
nothing about the frame counter". -/
def start (codes : StatusCodes) (s : Session) : Reply Session :=
  if ¬ s.initialized then ⟨s, codes.protocol, 0⟩
  else ⟨{ s with ranging := true }, 0, 0⟩

/-- Modelled from the spec: `check_data_ready` (`vl53l5cx_check_data_ready`,
not in the sources), a "non-blocking poll of a ready flag register; returns
false (not an error) when no new frame exists yet".  `flag` is the byte of the
ready flag register. -/
def check_data_ready (s : Session) (flag : Nat) : Reply Session :=
  ⟨s, 0, if flag ≠ 0 then 1 else 0⟩

/-- Modelled from the spec: `fetch_results` (`vl53l5cx_get_ranging_data`, not
in the sources) "reads the enabled-field set into the Results Buffer and
increments the frame counter".  The buffer contents are the firmware's and not
modelled. -/
def fetch_results (s : Session) : Reply Session :=
  ⟨{ s with streamcount := s.streamcount + 1 }, 0, 0⟩

/-- Modelled from the spec: `stop` (`vl53l5cx_stop_ranging`, not in the
sources) "transitions out of ranging active; safe to call when already stopped
(no-op, returns ok)". -/
def stop (s : Session) : Reply Session :=
  if ¬ s.ranging then ⟨s, 0, 0⟩
  else ⟨{ s with ranging := false }, 0, 0⟩

end Session

/-- The session operations, as commands of a script. -/
inductive Command where
  | is_alive
  | init
  | set_ranging_mode (mode : RangingMode)
  | set_integration_time (ms : Nat)
  | start
  | check_data_ready
  | fetch_results
  | stop
  deriving DecidableEq, Repr

/-- Run one command on a session; `bus` is the transport's answer, used by the
commands that read it. -/
def Session.exec (codes : StatusCodes) (identity : Nat) (s : Session) (c : Command) (bus : Bus) :
    Reply Session :=
  match c with
  | Command.is_alive => Session.is_alive identity s bus
  | Command.init => Session.init s bus.status
  | Command.set_ranging_mode mode => Session.set_ranging_mode codes mode s
  | Command.set_integration_time ms => Session.set_integration_time codes ms s
  | Command.start => Session.start codes s
  | Command.check_data_ready => Session.check_data_ready s bus.data
  | Command.fetch_results => Session.fetch_results s
  | Command.stop => Session.stop s

/-- The session reached from `s` by a script of commands, each with the
transport's answer to it. -/
def Session.run (codes : StatusCodes) (identity : Nat) (s : Session) :
    List (Command × Bus) → Session
  | [] => s
  | (c, bus) :: rest => Session.run codes identity (Session.exec codes identity s c bus).dev rest

/-- The session as a driver for the examples: the world is the session and the
number of calls made, and the `n`-th call gets the transport answer `env n`.
`VL53L5CX_WaitMs` only passes the time. -/
def sessionDriver (codes : StatusCodes) (identity : Nat) (env : Nat → Bus) :
    Driver (Session × Nat) where
  vl53l5cx_is_alive x :=
    let r := Session.is_alive identity x.1 (env x.2)
    ⟨(r.dev, x.2 + 1), r.status, r.out⟩
  vl53l5cx_init x :=
    let r := Session.init x.1 (env x.2).status
    ⟨(r.dev, x.2 + 1), r.status, r.out⟩
  vl53l5cx_set_ranging_mode mode x :=
    let r := Session.set_ranging_mode codes mode x.1
    ⟨(r.dev, x.2 + 1), r.status, r.out⟩
  vl53l5cx_set_integration_time_ms ms x :=
    let r := Session.set_integration_time codes ms x.1
    ⟨(r.dev, x.2 + 1), r.status, r.out⟩
  vl53l5cx_start_ranging x :=
    let r := Session.start codes x.1
    ⟨(r.dev, x.2 + 1), r.status, r.out⟩
  vl53l5cx_check_data_ready x :=
    let r := Session.check_data_ready x.1 (env x.2).data
    ⟨(r.dev, x.2 + 1), r.status, r.out⟩
  vl53l5cx_get_ranging_data x :=
    let r := Session.fetch_results x.1
    ⟨(r.dev, x.2 + 1), r.status, r.out⟩
  vl53l5cx_stop_ranging x :=
    let r := Session.stop x.1
    ⟨(r.dev, x.2 + 1), r.status, r.out⟩
  VL53L5CX_WaitMs _ x := ⟨(x.1, x.2 + 1), 0, 0⟩

/-- The frame counter after each call of a log. -/
def streamcounts (log : List (Event (Session × Nat))) : List Nat :=
  log.map (fun e => e.dev.1.streamcount)

/-- A property of the world that every driver call keeps. -/
def Driver.Preserves {τ : Type} (D : Driver τ) (Q : τ → Prop) : Prop :=
  (∀ y, Q y → Q (D.vl53l5cx_is_alive y).dev) ∧
  (∀ y, Q y → Q (D.vl53l5cx_init y).dev) ∧
  (∀ m y, Q y → Q (D.vl53l5cx_set_ranging_mode m y).dev) ∧
  (∀ ms y, Q y → Q (D.vl53l5cx_set_integration_time_ms ms y).dev) ∧
  (∀ y, Q y → Q (D.vl53l5cx_start_ranging y).dev) ∧
  (∀ y, Q y → Q (D.vl53l5cx_check_data_ready y).dev) ∧
  (∀ y, Q y → Q (D.vl53l5cx_get_ranging_data y).dev) ∧
  (∀ y, Q y → Q (D.vl53l5cx_stop_ranging y).dev) ∧
  (∀ ms y, Q y → Q (D.VL53L5CX_WaitMs ms y).dev)

/-- What holds of a logged run on the session driver entered with frame counter
`c₀`: the frame counter never went down from call to call, it is now at least
every value it had, and it is `c₀` plus the number of fetches made. -/
def CounterInv (c₀ : Nat) (y : (Session × Nat) × List (Event (Session × Nat))) : Prop :=
  (c₀ :: streamcounts y.2).Pairwise (fun a b => a ≤ b) ∧
  (∀ a ∈ c₀ :: streamcounts y.2, a ≤ y.1.1.streamcount) ∧
  y.1.1.streamcount = c₀ + (calls y.2).count Call.get_ranging_data

/-- The `isReady` bytes that the `check_data_ready` calls of a log stored, in
call order. -/
def readyAnswers {σ : Type} (log : List (Event σ)) : List Nat :=
  (log.filter (fun e => decide (e.call = Call.check_data_ready))).map (fun e => e.out)

/-- The autonomous phase of `example3` run, with its calls logged, on the driver
answering from `o`, entered when the entry points have been called `c` times. -/
def autonomousRun (o : Oracle) (fuel : Nat) (c : Counts) : (Counts × List (Event Counts)) × Flow :=
  example3_autonomous (traced (oracleDriver o)) fuel (c, [])

/-- What holds between two passes of the polling loop run on the driver
answering from `o`, when the loop was entered with `k₀` polls and `g₀` fetches
made before: the counter `loop` is the number of fetches made by the loop, in
the world and in the log, and the number of `ready` answers among the polls of
the loop; the log obeys the fetch rule, holds no `stop_ranging`, and its polls
were answered by the stream of `o` in order. -/
def PollInv (o : Oracle) (k₀ g₀ : Nat) (loop : Nat) (x : Counts × List (Event Counts)) : Prop :=
  loop ≤ 10 ∧
  x.1.get_ranging_data = g₀ + loop ∧
  (calls x.2).count Call.get_ranging_data = loop ∧
  x.2.foldlM fetchStep false = some false ∧
  k₀ ≤ x.1.check_data_ready ∧
  readyCount o k₀ (x.1.check_data_ready - k₀) = loop ∧
  (calls x.2).count Call.stop_ranging = 0 ∧
  readyAnswers x.2 =
    (List.range' k₀ (x.1.check_data_ready - k₀)).map (fun i => (o.check_data_ready i).1)

/-- What holds of a logged run on the session driver whose log the call
discipline allows: ranging is active in the session exactly when the discipline
has a ranging session open, the session is initialized when the discipline has
seen `init` succeed, and no call was refused other than `is_alive` and `init`,
which go to the transport, and `set_integration_time_ms`, which depends on the
mode. -/
def Tracks (y : (Session × Nat) × List (Event (Session × Nat))) : Prop :=
  ∀ m, Monitor.run Monitor.start y.2 = some m →
    y.1.1.ranging = m.active ∧
    (m.inited = true → y.1.1.initialized = true) ∧
    ∀ e ∈ y.2, e.call ≠ Call.is_alive → e.call ≠ Call.init →
      (∀ ms, e.call ≠ Call.set_integration_time_ms ms) → e.status = 0

/-! ## Concrete scenarios -/

/-- A driver that answers every call with status 0 and reports a frame ready
at every second poll, but finds no sensor: `isAlive = 0` with status 0. -/
def absentOracle : Oracle where
  is_alive := fun _ => (0, 0)
  init := fun _ => 0
  set_ranging_mode := fun _ => 0
  set_integration_time_ms := fun _ => 0
  start_ranging := fun _ => 0
  check_data_ready := fun n => (n % 2, 0)
  get_ranging_data := fun _ => 0
  stop_ranging := fun _ => 0
  WaitMs := fun _ => 0

/-- A driver that finds the sensor, answers every call with status 0 except
the second `stop_ranging`, which returns 7, and reports a frame ready at every
second poll. -/
def steadyOracle : Oracle where
  is_alive := fun _ => (1, 0)
  init := fun _ => 0
  set_ranging_mode := fun _ => 0
  set_integration_time_ms := fun _ => 0
  start_ranging := fun _ => 0
  check_data_ready := fun n => (n % 2, 0)
  get_ranging_data := fun _ => 0
  stop_ranging := fun n => if n = 1 then 7 else 0
  WaitMs := fun _ => 0

/-- The same frames and the same second `stop_ranging` as `steadyOracle`, with
failing statuses for `set_integration_time_ms`, `start_ranging`,
`check_data_ready`, `get_ranging_data`, `VL53L5CX_WaitMs` and the first
`stop_ranging`. -/
def noisyOracle : Oracle where
  is_alive := fun _ => (1, 0)
  init := fun _ => 0
  set_ranging_mode := fun _ => 0
  set_integration_time_ms := fun _ => 3
  start_ranging := fun _ => 1
  check_data_ready := fun n => (n % 2, 2)
  get_ranging_data := fun _ => 5
  stop_ranging := fun n => if n = 1 then 7 else 9
  WaitMs := fun _ => 4

/-- Status code 255 for protocol-state violations. -/
def sampleCodes : StatusCodes := ⟨255, by decide⟩

/-- A transport on which every transaction succeeds; the identity register
reads 240 and the ready flag is up at every third call. -/
def sampleEnv : Nat → Bus := fun n => if n = 0 then ⟨0, 240⟩ else ⟨0, if n % 3 = 0 then 1 else 0⟩

/-- The session reached by a successful `init` followed by a `start`. -/
def rangingSession : Session :=
  Session.run sampleCodes 240 Session.new
    [(Command.init, ⟨0, 0⟩), (Command.start, ⟨0, 0⟩)]

/-! # Theorems -/

/-! ## Results indexing -/

/-- C2: for every number `K` of targets per zone from 1 to 4, the index
`example5` computes for slot `j < K` of zone `i < 16` is `K * i + j` without
wrap-around in `uint16_t` and is below `16 * K`; different (zone, slot) pairs
get different indices; every index below `16 * K` is the index of some pair;
the two nested loops read the indices `0, 1, ..., 16 * K - 1` each once and in
order; and with the value 1 that the platform header gives the macro, the only
slot of a zone is slot 0 and its index is the zone index. -/
theorem example5_idx_layout (K : Nat) (hK1 : 1 ≤ K) (hK4 : K ≤ 4) :
    (∀ i j, i < 16 → j < K →
      example5_idx K i j = K * i + j ∧ example5_idx K i j < 16 * K ∧
      example5_idx K i j < 65536) ∧
    (∀ i j i' j', i < 16 → j < K → i' < 16 → j' < K →
      example5_idx K i j = example5_idx K i' j' → i = i' ∧ j = j') ∧
    (∀ n, n < 16 * K → ∃ i j, i < 16 ∧ j < K ∧ example5_idx K i j = n) ∧
    example5_frame_indices K = List.range (16 * K) ∧
    (VL53L5CX_NB_TARGET_PER_ZONE = 1 ∧
      ∀ i, i < 16 →
        example5_idx VL53L5CX_NB_TARGET_PER_ZONE i 0 = i ∧
        example3_idx VL53L5CX_NB_TARGET_PER_ZONE i = i ∧
        ∀ j, j < VL53L5CX_NB_TARGET_PER_ZONE → j = 0) := by
  have hidx : ∀ i j, i < 16 → j < K → example5_idx K i j = K * i + j := by
    intro i j hi hj
    unfold example5_idx
    apply Nat.mod_eq_of_lt
    have h1 : K * i ≤ 4 * 15 := Nat.mul_le_mul hK4 (by omega)
    omega
  refine ⟨?_, ?_, ?_, ?_, rfl, ?_⟩
  · intro i j hi hj
    rw [hidx i j hi hj]
    have h1 : K * i ≤ K * 15 := Nat.mul_le_mul_left K (by omega)
    have h2 : K * 15 ≤ 4 * 15 := Nat.mul_le_mul_right 15 hK4
    refine ⟨rfl, by omega, by omega⟩
  · intro i j i' j' hi hj hi' hj' h
    rw [hidx i j hi hj, hidx i' j' hi' hj'] at h
    interval_cases K <;> omega
  · intro n hn
    refine ⟨n / K, n % K, ?_, Nat.mod_lt _ (by omega), ?_⟩
    · exact (Nat.div_lt_iff_lt_mul (by omega)).2 hn
    · rw [hidx _ _ ((Nat.div_lt_iff_lt_mul (by omega)).2 hn) (Nat.mod_lt _ (by omega))]
      exact Nat.div_add_mod n K
  · interval_cases K <;> decide
  · intro i hi
    refine ⟨?_, ?_, ?_⟩
    · unfold example5_idx VL53L5CX_NB_TARGET_PER_ZONE; omega
    · unfold example3_idx VL53L5CX_NB_TARGET_PER_ZONE; omega
    · unfold VL53L5CX_NB_TARGET_PER_ZONE; omega

/-- C2 at the platform header's value of the macro: one slot per zone. -/
theorem example5_idx_layout_witness :
    1 ≤ VL53L5CX_NB_TARGET_PER_ZONE ∧ VL53L5CX_NB_TARGET_PER_ZONE ≤ 4 ∧
    example5_frame_indices VL53L5CX_NB_TARGET_PER_ZONE = List.range 16 :=
  ⟨by decide, by decide,
    (example5_idx_layout VL53L5CX_NB_TARGET_PER_ZONE (by decide) (by decide)).2.2.2.1⟩


/-! ## Logged calls, spelled out -/

theorem record_dev {σ : Type} (c : Call) (t : List (Event σ)) (r : Reply σ) :
    (record c t r).dev = (r.dev, t ++ [Event.of c r]) := rfl

theorem record_status {σ : Type} (c : Call) (t : List (Event σ)) (r : Reply σ) :
    (record c t r).status = r.status := rfl

theorem record_out {σ : Type} (c : Call) (t : List (Event σ)) (r : Reply σ) :
    (record c t r).out = r.out := rfl

theorem traced_is_alive {σ : Type} (d : Driver σ) (x : σ × List (Event σ)) :
    (traced d).vl53l5cx_is_alive x = record Call.is_alive x.2 (d.vl53l5cx_is_alive x.1) := rfl

theorem traced_init {σ : Type} (d : Driver σ) (x : σ × List (Event σ)) :
    (traced d).vl53l5cx_init x = record Call.init x.2 (d.vl53l5cx_init x.1) := rfl

theorem traced_set_ranging_mode {σ : Type} (d : Driver σ) (m : RangingMode)
    (x : σ × List (Event σ)) :
    (traced d).vl53l5cx_set_ranging_mode m x =
      record (Call.set_ranging_mode m) x.2 (d.vl53l5cx_set_ranging_mode m x.1) := rfl

theorem traced_set_integration_time_ms {σ : Type} (d : Driver σ) (ms : Nat)
    (x : σ × List (Event σ)) :
    (traced d).vl53l5cx_set_integration_time_ms ms x =
      record (Call.set_integration_time_ms ms) x.2
        (d.vl53l5cx_set_integration_time_ms ms x.1) := rfl

theorem traced_start_ranging {σ : Type} (d : Driver σ) (x : σ × List (Event σ)) :
    (traced d).vl53l5cx_start_ranging x =
      record Call.start_ranging x.2 (d.vl53l5cx_start_ranging x.1) := rfl

theorem traced_stop_ranging {σ : Type} (d : Driver σ) (x : σ × List (Event σ)) :
    (traced d).vl53l5cx_stop_ranging x =
      record Call.stop_ranging x.2 (d.vl53l5cx_stop_ranging x.1) := rfl

theorem traced_check_data_ready {σ : Type} (d : Driver σ) (x : σ × List (Event σ)) :
    (traced d).vl53l5cx_check_data_ready x =
      record Call.check_data_ready x.2 (d.vl53l5cx_check_data_ready x.1) := rfl

theorem traced_get_ranging_data {σ : Type} (d : Driver σ) (x : σ × List (Event σ)) :
    (traced d).vl53l5cx_get_ranging_data x =
      record Call.get_ranging_data x.2 (d.vl53l5cx_get_ranging_data x.1) := rfl

theorem traced_WaitMs {σ : Type} (d : Driver σ) (ms : Nat) (x : σ × List (Event σ)) :
    (traced d).VL53L5CX_WaitMs ms x = record (Call.WaitMs ms) x.2 (d.VL53L5CX_WaitMs ms x.1) := rfl

/-! ## The polling loop: proof rules -/

/-- Loop rule: a property of the counter `loop` and the world that every pass
of the body keeps is kept by the whole loop, whatever the budget. -/
theorem rangingLoop_inv {τ : Type} (D : Driver τ) (P : Nat → τ → Prop)
    (h : ∀ loop x, loop < 10 → P loop x → P (pollOnce D loop x).2 (pollOnce D loop x).1) :
    ∀ fuel loop x, P loop x →
      P (rangingLoop D fuel loop x).2 (rangingLoop D fuel loop x).1 := by
  intro fuel
  induction fuel with
  | zero => intro loop x hx; simpa [rangingLoop] using hx
  | succ n ih =>
    intro loop x hx
    unfold rangingLoop
    split
    · next hlt => exact ih _ _ (h loop x hlt hx)
    · exact hx

/-- One pass of the loop body over a logged driver, spelled out. -/
theorem pollOnce_traced {σ : Type} (d : Driver σ) (loop : Nat) (s : σ) (t : List (Event σ)) :
    pollOnce (traced d) loop (s, t) =
      if (d.vl53l5cx_check_data_ready s).out ≠ 0 then
        (((d.VL53L5CX_WaitMs 5
            (d.vl53l5cx_get_ranging_data (d.vl53l5cx_check_data_ready s).dev).dev).dev,
          t ++ [Event.of Call.check_data_ready (d.vl53l5cx_check_data_ready s),
                Event.of Call.get_ranging_data
                  (d.vl53l5cx_get_ranging_data (d.vl53l5cx_check_data_ready s).dev),
                Event.of (Call.WaitMs 5)
                  (d.VL53L5CX_WaitMs 5
                    (d.vl53l5cx_get_ranging_data (d.vl53l5cx_check_data_ready s).dev).dev)]),
          (loop + 1) % 256)
      else
        (((d.VL53L5CX_WaitMs 5 (d.vl53l5cx_check_data_ready s).dev).dev,
          t ++ [Event.of Call.check_data_ready (d.vl53l5cx_check_data_ready s),
                Event.of (Call.WaitMs 5)
                  (d.VL53L5CX_WaitMs 5 (d.vl53l5cx_check_data_ready s).dev)]),
          loop) := by
  simp only [pollOnce, traced, record]
  split <;> simp [List.append_assoc]

/-! ## Call discipline -/

theorem Monitor.run_nil {σ : Type} (m : Monitor) :
    Monitor.run m ([] : List (Event σ)) = some m := rfl

theorem Monitor.run_append {σ : Type} (m : Monitor) (l₁ l₂ : List (Event σ)) :
    Monitor.run m (l₁ ++ l₂) = (Monitor.run m l₁).bind (fun m' => Monitor.run m' l₂) := by
  simp [Monitor.run, List.foldlM_append]

theorem Monitor.run_cons {σ : Type} (m : Monitor) (e : Event σ) (l : List (Event σ)) :
    Monitor.run m (e :: l) = (m.step e).bind (fun m' => Monitor.run m' l) := by
  simp [Monitor.run, List.foldlM_cons]

/-- A pass of the loop body, made when no fetch is pending, is allowed by the
discipline and leaves its situation as it was. -/
theorem Monitor.run_pollOnce {σ : Type} (d : Driver σ) (m₀ m : Monitor) (hm : m.ready = false)
    (loop : Nat) (x : σ × List (Event σ)) (hx : Monitor.run m₀ x.2 = some m) :
    Monitor.run m₀ (pollOnce (traced d) loop x).1.2 = some m := by
  obtain ⟨s, t⟩ := x
  obtain ⟨a, i, ac, r⟩ := m
  simp only at hm hx
  subst hm
  rw [pollOnce_traced]
  split <;> rename_i hr
  · simp [Monitor.run_append, Monitor.run_cons, Monitor.run_nil, hx, Monitor.step, Event.of, hr]
  · simp [Monitor.run_append, Monitor.run_cons, Monitor.run_nil, hx, Monitor.step, Event.of, hr]

/-- The whole polling loop is allowed by the discipline and leaves its
situation as it was. -/
theorem Monitor.run_rangingLoop {σ : Type} (d : Driver σ) (m₀ m : Monitor) (hm : m.ready = false)
    (fuel loop : Nat) (x : σ × List (Event σ)) (hx : Monitor.run m₀ x.2 = some m) :
    Monitor.run m₀ (rangingLoop (traced d) fuel loop x).1.2 = some m :=
  rangingLoop_inv (traced d) (fun _ y => Monitor.run m₀ y.2 = some m)
    (fun l y _ hy => Monitor.run_pollOnce d m₀ m hm l y hy) fuel loop x hx


theorem Monitor.run_snoc {σ : Type} (m : Monitor) (t : List (Event σ)) (e : Event σ) :
    Monitor.run m (t ++ [e]) = (Monitor.run m t).bind (fun m' => m'.step e) := by
  simp [Monitor.run_append, Monitor.run_cons, Monitor.run_nil]

/-- The autonomous phase, entered after a successful `init` with no ranging
session open, is allowed by the discipline; when it ends a ranging session is
open only if the polling loop is still running. -/
theorem Monitor.run_autonomous {σ : Type} (d : Driver σ) (fuel : Nat) (x : σ × List (Event σ))
    (hx : Monitor.run Monitor.start x.2 = some ⟨true, true, false, false⟩) :
    Monitor.run Monitor.start (example3_autonomous (traced d) fuel x).1.2 =
      some ⟨true, true, decide ((example3_autonomous (traced d) fuel x).2 = Flow.spin), false⟩ := by
  simp only [example3_autonomous, traced_set_ranging_mode, traced_set_integration_time_ms,
    traced_start_ranging, traced_stop_ranging, record_dev, record_status]
  generalize d.vl53l5cx_set_ranging_mode RangingMode.Autonomous x.1 = r1
  generalize d.vl53l5cx_set_integration_time_ms 20 r1.dev = r2
  generalize d.vl53l5cx_start_ranging r2.dev = r3
  have h3 : Monitor.run Monitor.start
      (x.2 ++ [Event.of (Call.set_ranging_mode RangingMode.Autonomous) r1] ++
        [Event.of (Call.set_integration_time_ms 20) r2] ++ [Event.of Call.start_ranging r3]) =
      some ⟨true, true, true, false⟩ := by
    simp [Monitor.run_append, Monitor.run_cons, Monitor.run_nil, hx, Monitor.step, Event.of]
  have h4 := Monitor.run_rangingLoop d Monitor.start _ rfl fuel 0 (r3.dev, _) h3
  revert h4
  generalize rangingLoop (traced d) fuel 0 (r3.dev, _) = L
  intro h4
  split
  · simp [Monitor.run_append, Monitor.run_cons, Monitor.run_nil, hx, Monitor.step, Event.of]
  · split
    · simpa using h4
    · simp [Monitor.run_append, Monitor.run_cons, Monitor.run_nil, h4, Monitor.step, Event.of]

/-- The continuous phase, entered with no ranging session open, is allowed by
the discipline; when it ends a ranging session is open only if the polling
loop is still running. -/
theorem Monitor.run_continuous {σ : Type} (d : Driver σ) (fuel : Nat) (x : σ × List (Event σ))
    (hx : Monitor.run Monitor.start x.2 = some ⟨true, true, false, false⟩) :
    Monitor.run Monitor.start (example3_continuous (traced d) fuel x).1.2 =
      some ⟨true, true, decide ((example3_continuous (traced d) fuel x).2 = Flow.spin), false⟩ := by
  simp only [example3_continuous, traced_set_ranging_mode, traced_start_ranging,
    traced_stop_ranging, record_dev, record_status]
  generalize d.vl53l5cx_set_ranging_mode RangingMode.Continuous x.1 = r1
  generalize d.vl53l5cx_start_ranging r1.dev = r3
  have h3 : Monitor.run Monitor.start
      (x.2 ++ [Event.of (Call.set_ranging_mode RangingMode.Continuous) r1] ++
        [Event.of Call.start_ranging r3]) =
      some ⟨true, true, true, false⟩ := by
    simp [Monitor.run_append, Monitor.run_cons, Monitor.run_nil, hx, Monitor.step, Event.of]
  have h4 := Monitor.run_rangingLoop d Monitor.start _ rfl fuel 0 (r3.dev, _) h3
  revert h4
  generalize rangingLoop (traced d) fuel 0 (r3.dev, _) = L
  intro h4
  split
  · simp [Monitor.run_append, Monitor.run_cons, Monitor.run_nil, hx, Monitor.step, Event.of]
  · split
    · simpa using h4
    · simp [Monitor.run_append, Monitor.run_cons, Monitor.run_nil, h4, Monitor.step, Event.of]

/-- Every log of `example3` is allowed by the discipline, and when it ends a
ranging session is open only if a polling loop is still running. -/
theorem Monitor.run_example3 {σ : Type} (d : Driver σ) (fuel : Nat) (s : σ) :
    ∃ m, Monitor.run Monitor.start (example3 (traced d) fuel (s, [])).1.2 = some m ∧
      (m.active = true → (example3 (traced d) fuel (s, [])).2 = Flow.spin) := by
  simp only [example3, traced_is_alive, traced_init, record_dev, record_status, record_out]
  generalize d.vl53l5cx_is_alive s = r0
  generalize d.vl53l5cx_init r0.dev = r1
  split
  · exact ⟨_, by simp [Monitor.run, Monitor.step, Event.of]; rfl, by simp [Monitor.start]⟩
  · rename_i ha
    have ha1 : r0.out ≠ 0 := fun h => ha (Or.inl h)
    have ha2 : r0.status = 0 := by
      by_contra h; exact ha (Or.inr h)
    split
    · exact ⟨_, by simp [Monitor.run, Monitor.step, Event.of, ha1, ha2]; rfl, by simp [Monitor.start]⟩
    · rename_i hi
      have hi1 : r1.status = 0 := by
        by_contra h; exact hi h
      have h1 : Monitor.run Monitor.start
          ([] ++ [Event.of Call.is_alive r0] ++ [Event.of Call.init r1]) =
          some ⟨true, true, false, false⟩ := by
        simp [Monitor.run, Monitor.step, Event.of, ha1, ha2, hi1, Monitor.start]
      have h2 := Monitor.run_autonomous d fuel (r1.dev, _) h1
      revert h2
      generalize example3_autonomous (traced d) fuel (r1.dev, _) = A
      intro h2
      split
      · rename_i hn
        have h3 := Monitor.run_continuous d fuel A.1 (by simpa [hn] using h2)
        exact ⟨_, h3, by simp⟩
      · rename_i st hn
        exact ⟨_, h2, by simp [hn]⟩
      · exact ⟨_, h2, by simp⟩

/-- The discipline is not empty: it refuses `init` before any `is_alive`, a
`get_ranging_data` after a poll that reported no frame, a `set_ranging_mode`
inside a ranging session, and a `start_ranging` after a failed `init`. -/
theorem Monitor.refuses :
    Monitor.run Monitor.start [(⟨Call.init, 0, 0, ()⟩ : Event Unit)] = none ∧
    Monitor.run ⟨true, true, true, false⟩
      [(⟨Call.check_data_ready, 0, 0, ()⟩ : Event Unit), ⟨Call.get_ranging_data, 0, 0, ()⟩] =
      none ∧
    Monitor.run ⟨true, true, true, false⟩
      [(⟨Call.set_ranging_mode RangingMode.Continuous, 0, 0, ()⟩ : Event Unit)] = none ∧
    Monitor.run Monitor.start
      [(⟨Call.is_alive, 0, 1, ()⟩ : Event Unit), ⟨Call.init, 3, 0, ()⟩,
        ⟨Call.start_ranging, 0, 0, ()⟩] = none := by
  refine ⟨rfl, rfl, rfl, rfl⟩

/-- C8: whatever statuses and flags the driver calls return (any driver `d`,
any world `s`) and however long the polling loops are followed (any `fuel`),
the sequence of calls `example3` makes is allowed by the call discipline
`Monitor.step`: `init` only after `is_alive` reported alive with status 0,
`start_ranging` only after `init` returned 0 and with no ranging session open,
`set_ranging_mode` and `set_integration_time_ms` only with no ranging session
open, `get_ranging_data` only directly after a `check_data_ready` that reported
ready, `stop_ranging` only to close the open session; and when `example3`
returns, no ranging session is left open. -/
theorem example3_calls_legal {σ : Type} (d : Driver σ) (fuel : Nat) (s : σ) :
    ∃ m, Monitor.run Monitor.start (example3 (traced d) fuel (s, [])).1.2 = some m ∧
      ∀ status, (example3 (traced d) fuel (s, [])).2 = Flow.ret status → m.active = false := by
  obtain ⟨m, hm, hact⟩ := Monitor.run_example3 d fuel s
  refine ⟨m, hm, ?_⟩
  intro status hret
  cases hm' : m.active with
  | false => rfl
  | true =>
    have := hact hm'
    rw [hret] at this
    cases this

/-- C9: in each of `example3`, `example5` and `example6`, when `is_alive`
stores `isAlive = 0` or returns a non-zero status, the example makes that one
call only (neither `init` nor `start_ranging` follows) and returns the status
`is_alive` returned; when that status is 0 the example returns 0. -/
theorem examples_return_when_not_alive {σ : Type} (d : Driver σ) (fuel : Nat) (s : σ)
    (h : (d.vl53l5cx_is_alive s).out = 0 ∨ (d.vl53l5cx_is_alive s).status ≠ 0) :
    example3 (traced d) fuel (s, []) =
      (((d.vl53l5cx_is_alive s).dev, [Event.of Call.is_alive (d.vl53l5cx_is_alive s)]),
        Flow.ret (d.vl53l5cx_is_alive s).status) ∧
    example5 (traced d) fuel (s, []) =
      (((d.vl53l5cx_is_alive s).dev, [Event.of Call.is_alive (d.vl53l5cx_is_alive s)]),
        Flow.ret (d.vl53l5cx_is_alive s).status) ∧
    example6 (traced d) fuel (s, []) =
      (((d.vl53l5cx_is_alive s).dev, [Event.of Call.is_alive (d.vl53l5cx_is_alive s)]),
        Flow.ret (d.vl53l5cx_is_alive s).status) ∧
    ((d.vl53l5cx_is_alive s).status = 0 →
      (example3 (traced d) fuel (s, [])).2 = Flow.ret 0 ∧
      (example5 (traced d) fuel (s, [])).2 = Flow.ret 0 ∧
      (example6 (traced d) fuel (s, [])).2 = Flow.ret 0) := by
  have h3 : example3 (traced d) fuel (s, []) =
      (((d.vl53l5cx_is_alive s).dev, [Event.of Call.is_alive (d.vl53l5cx_is_alive s)]),
        Flow.ret (d.vl53l5cx_is_alive s).status) := by
    simp only [example3, traced_is_alive, record_dev, record_status, record_out]
    rw [if_pos h]
    simp
  have h5 : example5 (traced d) fuel (s, []) =
      (((d.vl53l5cx_is_alive s).dev, [Event.of Call.is_alive (d.vl53l5cx_is_alive s)]),
        Flow.ret (d.vl53l5cx_is_alive s).status) := by
    simp only [example5, traced_is_alive, record_dev, record_status, record_out]
    rw [if_pos h]
    simp
  have h6 : example6 (traced d) fuel (s, []) =
      (((d.vl53l5cx_is_alive s).dev, [Event.of Call.is_alive (d.vl53l5cx_is_alive s)]),
        Flow.ret (d.vl53l5cx_is_alive s).status) := by
    simp only [example6, traced_is_alive, record_dev, record_status, record_out]
    rw [if_pos h]
    simp
  refine ⟨h3, h5, h6, ?_⟩
  intro h0
  rw [h3, h5, h6, h0]
  exact ⟨rfl, rfl, rfl⟩

/-- C9 on a driver that finds no sensor and reports no error: the three
examples return 0 after the single call of `is_alive`. -/
theorem examples_return_when_not_alive_witness :
    ((oracleDriver absentOracle).vl53l5cx_is_alive Counts.zero).out = 0 ∧
    (example3 (traced (oracleDriver absentOracle)) 40 (Counts.zero, [])).2 = Flow.ret 0 ∧
    calls (example5 (traced (oracleDriver absentOracle)) 40 (Counts.zero, [])).1.2 =
      [Call.is_alive] :=
  ⟨rfl,
    ((examples_return_when_not_alive (oracleDriver absentOracle) 40 Counts.zero
      (Or.inl rfl)).2.2.2 rfl).1,
    by
      rw [(examples_return_when_not_alive (oracleDriver absentOracle) 40 Counts.zero
        (Or.inl rfl)).2.1]
      rfl⟩

/-! ## The polling loop on a driver answering from streams -/

theorem readyCount_zero (o : Oracle) (k : Nat) : readyCount o k 0 = 0 := by
  simp [readyCount]

theorem readyCount_succ (o : Oracle) (k n : Nat) :
    readyCount o k (n + 1) =
      (if (o.check_data_ready k).1 ≠ 0 then 1 else 0) + readyCount o (k + 1) n := by
  simp only [readyCount, List.range'_succ, List.filter_cons]
  split <;> simp_all
  omega

theorem readyCount_concat (o : Oracle) (k n : Nat) :
    readyCount o k (n + 1) =
      readyCount o k n + (if (o.check_data_ready (k + n)).1 ≠ 0 then 1 else 0) := by
  simp only [readyCount, List.range'_concat, List.filter_append, List.length_append, Nat.one_mul]
  congr 1
  simp only [List.filter_cons, List.filter_nil]
  split <;> simp_all

/-- With enough `ready` answers within the budget, the polling loop ends. -/
theorem rangingLoop_oracle_exits (o : Oracle) :
    ∀ (fuel loop : Nat) (c : Counts) (t : List (Event Counts)), loop ≤ 10 →
      10 ≤ loop + readyCount o c.check_data_ready fuel →
      (rangingLoop (traced (oracleDriver o)) fuel loop (c, t)).2 = 10 := by
  intro fuel
  induction fuel with
  | zero =>
    intro loop c t h1 h2
    rw [readyCount_zero] at h2
    simp only [rangingLoop]
    omega
  | succ n ih =>
    intro loop c t h1 h2
    rw [readyCount_succ] at h2
    unfold rangingLoop
    split
    · rename_i hlt
      rw [pollOnce_traced]
      by_cases hr : (o.check_data_ready c.check_data_ready).1 = 0
      · have hr' : ((oracleDriver o).vl53l5cx_check_data_ready c).out = 0 := hr
        simp only [hr', ne_eq, not_true_eq_false, if_false]
        apply ih
        · exact h1
        · simp only [hr, ne_eq, not_true_eq_false, if_false] at h2
          simpa [oracleDriver] using h2
      · have hr' : ((oracleDriver o).vl53l5cx_check_data_ready c).out ≠ 0 := hr
        simp only [hr', ne_eq, not_false_eq_true, if_true]
        apply ih
        · omega
        · simp only [hr, ne_eq, not_false_eq_true, if_true] at h2
          have : (loop + 1) % 256 = loop + 1 := Nat.mod_eq_of_lt (by omega)
          rw [this]
          simp only [oracleDriver]
          omega
    · omega

/-- Every pass of the loop body keeps `PollInv`. -/
theorem pollInv_pass (o : Oracle) (k₀ g₀ loop : Nat) (x : Counts × List (Event Counts))
    (hlt : loop < 10) (h : PollInv o k₀ g₀ loop x) :
    PollInv o k₀ g₀ (pollOnce (traced (oracleDriver o)) loop x).2
      (pollOnce (traced (oracleDriver o)) loop x).1 := by
  obtain ⟨c, t⟩ := x
  obtain ⟨h1, h2, h3, h4, h5, h6, h7, h8⟩ := h
  simp only at h2 h3 h4 h5 h6 h7 h8
  have hsub : c.check_data_ready + 1 - k₀ = (c.check_data_ready - k₀) + 1 := by omega
  have hk : k₀ + (c.check_data_ready - k₀) = c.check_data_ready := by omega
  have hmod : (loop + 1) % 256 = loop + 1 := Nat.mod_eq_of_lt (by omega)
  rw [pollOnce_traced]
  by_cases hr : (o.check_data_ready c.check_data_ready).1 = 0
  · have hr' : ((oracleDriver o).vl53l5cx_check_data_ready c).out = 0 := hr
    simp only [hr', ne_eq, not_true_eq_false, if_false]
    refine ⟨h1, ?_, ?_, ?_, ?_, ?_, ?_, ?_⟩
    · simpa [oracleDriver] using h2
    · simpa [calls, Event.of] using h3
    · simp [List.foldlM_append, h4, fetchStep, Event.of, hr']
    · simp only [oracleDriver]; omega
    · simp only [oracleDriver, hsub, readyCount_concat, hk, hr, h6]
      simp
    · simpa [calls, Event.of] using h7
    · simp only [oracleDriver, hsub, List.range'_concat, List.map_append, hk, ← h8]
      simp [readyAnswers, Event.of, hr]
      rw [hk, hr]
  · have hr' : ((oracleDriver o).vl53l5cx_check_data_ready c).out ≠ 0 := hr
    simp only [hr', ne_eq, not_false_eq_true, if_true, hmod]
    refine ⟨by omega, ?_, ?_, ?_, ?_, ?_, ?_, ?_⟩
    · simp only [oracleDriver]; omega
    · simp [calls, Event.of] at h3 ⊢
      omega
    · simp [List.foldlM_append, h4, fetchStep, Event.of, hr']
    · simp only [oracleDriver]; omega
    · simp only [oracleDriver, hsub, readyCount_concat, hk, hr, h6]
      simp
      exact hr
    · simpa [calls, Event.of] using h7
    · simp only [oracleDriver, hsub, List.range'_concat, List.map_append, hk, ← h8]
      simp [readyAnswers, Event.of, hr]
      rw [hk]

/-- The polling loop keeps `PollInv` and the calls already in the log. -/
theorem pollInv_loop (o : Oracle) (k₀ g₀ : Nat) (pre : List Call) (fuel loop : Nat)
    (x : Counts × List (Event Counts)) (h : PollInv o k₀ g₀ loop x) (hp : pre <+: calls x.2) :
    PollInv o k₀ g₀ (rangingLoop (traced (oracleDriver o)) fuel loop x).2
      (rangingLoop (traced (oracleDriver o)) fuel loop x).1 ∧
    pre <+: calls (rangingLoop (traced (oracleDriver o)) fuel loop x).1.2 := by
  refine rangingLoop_inv (traced (oracleDriver o))
    (fun l y => PollInv o k₀ g₀ l y ∧ pre <+: calls y.2) ?_ fuel loop x ⟨h, hp⟩
  intro l y hl hy
  refine ⟨pollInv_pass o k₀ g₀ l y hl hy.1, ?_⟩
  obtain ⟨c, t⟩ := y
  rw [pollOnce_traced]
  split
  · simp only [calls, List.map_append]
    exact hy.2.trans (List.prefix_append _ _)
  · simp only [calls, List.map_append]
    exact hy.2.trans (List.prefix_append _ _)

/-- C1: in the autonomous phase of `example3`, run on a driver whose
`set_ranging_mode` succeeds and whose answers to `check_data_ready` hold at
least 10 `ready` among the first `fuel`, the polling loop ends and the phase
runs to its end; its calls start with `set_ranging_mode(AUTONOMOUS)`,
`set_integration_time_ms(20)`, `start_ranging` and end with the only
`stop_ranging`; `get_ranging_data` is called exactly 10 times, directly after
every `check_data_ready` that reported ready and nowhere else; the polls were
answered by the driver's answers in order, and exactly 10 of the answers used
are `ready`; and the number of fetches made, which is the frame counter when
each fetch adds 1 to it, is 10 more after the phase than before. -/
theorem example3_autonomous_ten_frames (o : Oracle) (fuel : Nat) (c : Counts)
    (hmode : o.set_ranging_mode c.set_ranging_mode = 0)
    (hready : 10 ≤ readyCount o c.check_data_ready fuel) :
    (autonomousRun o fuel c).2 = Flow.next ∧
    (∃ polls, calls (autonomousRun o fuel c).1.2 =
        [Call.set_ranging_mode RangingMode.Autonomous, Call.set_integration_time_ms 20,
          Call.start_ranging] ++ polls ++ [Call.stop_ranging] ∧
      polls.count Call.stop_ranging = 0) ∧
    (calls (autonomousRun o fuel c).1.2).count Call.get_ranging_data = 10 ∧
    fetchesFollowReady (autonomousRun o fuel c).1.2 = true ∧
    readyAnswers (autonomousRun o fuel c).1.2 =
      (List.range' c.check_data_ready
        ((autonomousRun o fuel c).1.1.check_data_ready - c.check_data_ready)).map
        (fun i => (o.check_data_ready i).1) ∧
    readyCount o c.check_data_ready
      ((autonomousRun o fuel c).1.1.check_data_ready - c.check_data_ready) = 10 ∧
    (autonomousRun o fuel c).1.1.get_ranging_data = c.get_ranging_data + 10 := by
  have hm : ((oracleDriver o).vl53l5cx_set_ranging_mode RangingMode.Autonomous c).status = 0 :=
    hmode
  simp only [autonomousRun, example3_autonomous, traced_set_ranging_mode,
    traced_set_integration_time_ms, traced_start_ranging, traced_stop_ranging, record_dev,
    record_status, hm, ne_eq, not_true_eq_false, if_false, List.nil_append]
  generalize hr1 : (oracleDriver o).vl53l5cx_set_ranging_mode RangingMode.Autonomous c = r1
  generalize hr2 : (oracleDriver o).vl53l5cx_set_integration_time_ms 20 r1.dev = r2
  generalize hr3 : (oracleDriver o).vl53l5cx_start_ranging r2.dev = r3
  have hk : r3.dev.check_data_ready = c.check_data_ready := by
    rw [← hr3, ← hr2, ← hr1]; rfl
  have hg : r3.dev.get_ranging_data = c.get_ranging_data := by
    rw [← hr3, ← hr2, ← hr1]; rfl
  have hinv : PollInv o c.check_data_ready c.get_ranging_data 0
      (r3.dev, [Event.of (Call.set_ranging_mode RangingMode.Autonomous) r1] ++
        [Event.of (Call.set_integration_time_ms 20) r2] ++ [Event.of Call.start_ranging r3]) := by
    refine ⟨by omega, ?_, ?_, ?_, ?_, ?_, ?_, ?_⟩
    · simpa using hg
    · simp [calls, Event.of]
    · simp [fetchStep, Event.of]
    · simp [hk]
    · simp [hk, readyCount_zero]
    · simp [calls, Event.of]
    · simp [readyAnswers, Event.of, hk]
  have hpre : [Call.set_ranging_mode RangingMode.Autonomous, Call.set_integration_time_ms 20,
      Call.start_ranging] <+: calls
        ([Event.of (Call.set_ranging_mode RangingMode.Autonomous) r1] ++
          [Event.of (Call.set_integration_time_ms 20) r2] ++ [Event.of Call.start_ranging r3]) := by
    simp [calls, Event.of]
  have hexit := rangingLoop_oracle_exits o fuel 0 r3.dev
    ([Event.of (Call.set_ranging_mode RangingMode.Autonomous) r1] ++
      [Event.of (Call.set_integration_time_ms 20) r2] ++ [Event.of Call.start_ranging r3])
    (by omega) (by rw [hk]; omega)
  have hloop := pollInv_loop o c.check_data_ready c.get_ranging_data _ fuel 0 _ hinv hpre
  revert hexit hloop
  generalize rangingLoop (traced (oracleDriver o)) fuel 0 (r3.dev, _) = L
  intro hexit hloop
  obtain ⟨⟨-, h2, h3, h4, h5, h6, h7, h8⟩, polls, hpolls⟩ := hloop
  rw [hexit] at h2 h3 h6
  simp only [hexit, Nat.lt_irrefl, if_false]
  refine ⟨trivial, ⟨polls, ?_, ?_⟩, ?_, ?_, ?_, ?_, ?_⟩
  · simp [calls, Event.of] at hpolls ⊢
    simp [← hpolls]
  · have : (calls L.1.2).count Call.stop_ranging = 0 := h7
    rw [← hpolls] at this
    simpa using this
  · simpa [calls, Event.of] using h3
  · simp [fetchesFollowReady, List.foldlM_append, h4, fetchStep, Event.of]
  · simpa [readyAnswers, Event.of, oracleDriver] using h8
  · simpa [oracleDriver] using h6
  · simpa [oracleDriver] using h2

/-- C1 on a driver reporting a frame ready at every second poll: the ten
`ready` answers are among the first 20, and the phase makes ten fetches. -/
theorem example3_autonomous_ten_frames_witness :
    steadyOracle.set_ranging_mode Counts.zero.set_ranging_mode = 0 ∧
    10 ≤ readyCount steadyOracle Counts.zero.check_data_ready 20 ∧
    (autonomousRun steadyOracle 20 Counts.zero).2 = Flow.next ∧
    (autonomousRun steadyOracle 20 Counts.zero).1.1.get_ranging_data = 10 :=
  ⟨rfl, by decide,
    (example3_autonomous_ten_frames steadyOracle 20 Counts.zero rfl (by decide)).1,
    (example3_autonomous_ten_frames steadyOracle 20 Counts.zero rfl (by decide)).2.2.2.2.2.2⟩

/-! ## The statuses `example3` drops -/

/-- The polling loop takes the same path on two drivers whose
`check_data_ready` answers store the same `isReady` bytes. -/
theorem rangingLoop_oracle_congr (o₁ o₂ : Oracle)
    (hready : ∀ n, (o₁.check_data_ready n).1 = (o₂.check_data_ready n).1) :
    ∀ (fuel loop : Nat) (c : Counts),
      rangingLoop (oracleDriver o₁) fuel loop c = rangingLoop (oracleDriver o₂) fuel loop c := by
  intro fuel
  induction fuel with
  | zero => intro loop c; rfl
  | succ n ih =>
    intro loop c
    have hp : pollOnce (oracleDriver o₁) loop c = pollOnce (oracleDriver o₂) loop c := by
      simp only [pollOnce, oracleDriver, hready]
    unfold rangingLoop
    rw [hp, ih]

theorem oracleDriver_is_alive (o : Oracle) (c : Counts) :
    (oracleDriver o).vl53l5cx_is_alive c =
      ⟨{ c with is_alive := c.is_alive + 1 }, (o.is_alive c.is_alive).2,
        (o.is_alive c.is_alive).1⟩ := rfl

theorem oracleDriver_init (o : Oracle) (c : Counts) :
    (oracleDriver o).vl53l5cx_init c = ⟨{ c with init := c.init + 1 }, o.init c.init, 0⟩ := rfl

theorem oracleDriver_set_ranging_mode (o : Oracle) (m : RangingMode) (c : Counts) :
    (oracleDriver o).vl53l5cx_set_ranging_mode m c =
      ⟨{ c with set_ranging_mode := c.set_ranging_mode + 1 },
        o.set_ranging_mode c.set_ranging_mode, 0⟩ := rfl

theorem oracleDriver_set_integration_time_ms (o : Oracle) (ms : Nat) (c : Counts) :
    (oracleDriver o).vl53l5cx_set_integration_time_ms ms c =
      ⟨{ c with set_integration_time_ms := c.set_integration_time_ms + 1 },
        o.set_integration_time_ms c.set_integration_time_ms, 0⟩ := rfl

theorem oracleDriver_start_ranging (o : Oracle) (c : Counts) :
    (oracleDriver o).vl53l5cx_start_ranging c =
      ⟨{ c with start_ranging := c.start_ranging + 1 }, o.start_ranging c.start_ranging, 0⟩ := rfl

theorem oracleDriver_stop_ranging (o : Oracle) (c : Counts) :
    (oracleDriver o).vl53l5cx_stop_ranging c =
      ⟨{ c with stop_ranging := c.stop_ranging + 1 }, o.stop_ranging c.stop_ranging, 0⟩ := rfl

/-- The polling loop calls neither `set_ranging_mode` nor `stop_ranging`. -/
theorem rangingLoop_oracle_counts (o : Oracle) (fuel loop : Nat) (c : Counts) :
    (rangingLoop (oracleDriver o) fuel loop c).1.set_ranging_mode = c.set_ranging_mode ∧
    (rangingLoop (oracleDriver o) fuel loop c).1.stop_ranging = c.stop_ranging := by
  refine rangingLoop_inv (oracleDriver o)
    (fun _ y => y.set_ranging_mode = c.set_ranging_mode ∧ y.stop_ranging = c.stop_ranging)
    ?_ fuel loop c ⟨rfl, rfl⟩
  intro l y _ hy
  simp only [pollOnce, oracleDriver]
  split <;> exact hy

/-- The autonomous phase ends the same way on two drivers that agree on the
status of the next `set_ranging_mode` and on the `isReady` bytes. -/
theorem example3_autonomous_congr (o₁ o₂ : Oracle) (fuel : Nat) (c : Counts)
    (hmode : o₁.set_ranging_mode c.set_ranging_mode = o₂.set_ranging_mode c.set_ranging_mode)
    (hready : ∀ n, (o₁.check_data_ready n).1 = (o₂.check_data_ready n).1) :
    example3_autonomous (oracleDriver o₁) fuel c = example3_autonomous (oracleDriver o₂) fuel c := by
  simp only [example3_autonomous, oracleDriver_set_ranging_mode,
    oracleDriver_set_integration_time_ms, oracleDriver_start_ranging, oracleDriver_stop_ranging,
    hmode, rangingLoop_oracle_congr o₁ o₂ hready]

/-- The continuous phase ends the same way on two drivers that agree on the
status of the next `set_ranging_mode`, on the `isReady` bytes and on the status
of the next `stop_ranging`. -/
theorem example3_continuous_congr (o₁ o₂ : Oracle) (fuel : Nat) (c : Counts)
    (hmode : o₁.set_ranging_mode c.set_ranging_mode = o₂.set_ranging_mode c.set_ranging_mode)
    (hready : ∀ n, (o₁.check_data_ready n).1 = (o₂.check_data_ready n).1)
    (hstop : o₁.stop_ranging c.stop_ranging = o₂.stop_ranging c.stop_ranging) :
    example3_continuous (oracleDriver o₁) fuel c = example3_continuous (oracleDriver o₂) fuel c := by
  simp only [example3_continuous, oracleDriver_set_ranging_mode, oracleDriver_start_ranging,
    oracleDriver_stop_ranging, hmode, rangingLoop_oracle_congr o₁ o₂ hready]
  have hc := (rangingLoop_oracle_counts o₂ fuel 0
    { c with set_ranging_mode := c.set_ranging_mode + 1,
             start_ranging := c.start_ranging + 1 }).2
  simp only at hc
  rw [hc, hstop]

/-- The autonomous phase that runs to its end has called `set_ranging_mode`
and `stop_ranging` once each. -/
theorem example3_autonomous_counts (o : Oracle) (fuel : Nat) (c : Counts)
    (h : (example3_autonomous (oracleDriver o) fuel c).2 = Flow.next) :
    (example3_autonomous (oracleDriver o) fuel c).1.set_ranging_mode = c.set_ranging_mode + 1 ∧
    (example3_autonomous (oracleDriver o) fuel c).1.stop_ranging = c.stop_ranging + 1 := by
  revert h
  simp only [example3_autonomous, oracleDriver_set_ranging_mode,
    oracleDriver_set_integration_time_ms, oracleDriver_start_ranging, oracleDriver_stop_ranging]
  have hc := rangingLoop_oracle_counts o fuel 0
    { c with set_ranging_mode := c.set_ranging_mode + 1,
             set_integration_time_ms := c.set_integration_time_ms + 1,
             start_ranging := c.start_ranging + 1 }
  simp only at hc
  split
  · intro h; cases h
  · split
    · intro h; cases h
    · intro _
      simp only [hc, and_self]

/-- The continuous phase whose `set_ranging_mode` succeeds and whose polling
loop ends returns the status of its `stop_ranging`. -/
theorem example3_continuous_ret (o : Oracle) (fuel : Nat) (c : Counts)
    (hm : o.set_ranging_mode c.set_ranging_mode = 0)
    (h : (example3_continuous (oracleDriver o) fuel c).2 ≠ Flow.spin) :
    (example3_continuous (oracleDriver o) fuel c).2 = Flow.ret (o.stop_ranging c.stop_ranging) := by
  revert h
  simp only [example3_continuous, oracleDriver_set_ranging_mode, oracleDriver_start_ranging,
    oracleDriver_stop_ranging, hm, ne_eq, not_true_eq_false, if_false]
  have hc := (rangingLoop_oracle_counts o fuel 0
    { c with set_ranging_mode := c.set_ranging_mode + 1,
             start_ranging := c.start_ranging + 1 }).2
  simp only at hc
  split
  · intro h; exact absurd rfl h
  · intro _
    simp only [hc]

/-- C10: the value `example3` returns does not depend on the statuses returned
by `set_integration_time_ms`, `start_ranging`, `check_data_ready`,
`get_ranging_data`, `VL53L5CX_WaitMs` and the first `stop_ranging`: two drivers
that agree on the answer of `is_alive`, the status of `init`, the statuses of
the two `set_ranging_mode`, the `isReady` bytes and the status of the second
`stop_ranging` make `example3` end the same way after the same calls; and when
`is_alive`, `init` and both `set_ranging_mode` calls succeed and both polling
loops end, the value returned is the status of the second, final
`stop_ranging`. -/
theorem example3_return_independent (o₁ o₂ : Oracle) (fuel : Nat)
    (halive : o₁.is_alive 0 = o₂.is_alive 0)
    (hinit : o₁.init 0 = o₂.init 0)
    (hmode₀ : o₁.set_ranging_mode 0 = o₂.set_ranging_mode 0)
    (hmode₁ : o₁.set_ranging_mode 1 = o₂.set_ranging_mode 1)
    (hready : ∀ n, (o₁.check_data_ready n).1 = (o₂.check_data_ready n).1)
    (hstop : o₁.stop_ranging 1 = o₂.stop_ranging 1) :
    example3 (oracleDriver o₁) fuel Counts.zero = example3 (oracleDriver o₂) fuel Counts.zero ∧
    ((o₁.is_alive 0).1 ≠ 0 → (o₁.is_alive 0).2 = 0 → o₁.init 0 = 0 →
      o₁.set_ranging_mode 0 = 0 → o₁.set_ranging_mode 1 = 0 →
      (example3 (oracleDriver o₁) fuel Counts.zero).2 ≠ Flow.spin →
      (example3 (oracleDriver o₁) fuel Counts.zero).2 = Flow.ret (o₁.stop_ranging 1)) := by
  constructor
  · have hA := example3_autonomous_congr o₁ o₂ fuel ⟨1, 1, 0, 0, 0, 0, 0, 0, 0⟩ hmode₀ hready
    simp only [example3, oracleDriver_is_alive, oracleDriver_init, Counts.zero, halive, hinit,
      Nat.zero_add, hA]
    split
    · rfl
    · split
      · rfl
      · split
        · rename_i hn
          have hc := example3_autonomous_counts o₂ fuel _ hn
          exact example3_continuous_congr o₁ o₂ fuel _ (by rw [hc.1]; exact hmode₁) hready
            (by rw [hc.2]; exact hstop)
        · rfl
        · rfl
  · intro ha1 ha2 hi hm0 hm1
    simp only [example3, oracleDriver_is_alive, oracleDriver_init, Counts.zero, ha1, ha2, hi,
      ne_eq, not_true_eq_false, or_self, if_false]
    split
    · rename_i hn
      have hc := example3_autonomous_counts o₁ fuel _ hn
      intro hs
      have := example3_continuous_ret o₁ fuel _ (by rw [hc.1]; exact hm1) hs
      rw [this, hc.2]
    · rename_i st hn
      intro _
      revert hn
      simp only [example3_autonomous, oracleDriver_set_ranging_mode, hm0, ne_eq,
        not_true_eq_false, if_false]
      split
      · intro h; cases h
      · intro h; cases h
    · rename_i hn
      intro h
      exact absurd rfl h

/-! ## Properties kept by every call -/

theorem pollOnce_preserves {τ : Type} (D : Driver τ) (Q : τ → Prop) (h : D.Preserves Q)
    (loop : Nat) (y : τ) (hy : Q y) : Q (pollOnce D loop y).1 := by
  obtain ⟨-, -, -, -, -, hcheck, hget, -, hwait⟩ := h
  unfold pollOnce
  simp only []
  split
  · exact hwait _ _ (hget _ (hcheck _ hy))
  · exact hwait _ _ (hcheck _ hy)

theorem rangingLoop_preserves {τ : Type} (D : Driver τ) (Q : τ → Prop) (h : D.Preserves Q)
    (fuel loop : Nat) (y : τ) (hy : Q y) : Q (rangingLoop D fuel loop y).1 :=
  rangingLoop_inv D (fun _ z => Q z) (fun l z _ hz => pollOnce_preserves D Q h l z hz)
    fuel loop y hy

theorem example3_autonomous_preserves {τ : Type} (D : Driver τ) (Q : τ → Prop)
    (h : D.Preserves Q) (fuel : Nat) (y : τ) (hy : Q y) :
    Q (example3_autonomous D fuel y).1 := by
  have hloop := rangingLoop_preserves D Q h fuel 0
  obtain ⟨-, -, hmode, hint, hstart, -, -, hstop, -⟩ := h
  unfold example3_autonomous
  simp only []
  split
  · exact hmode _ _ hy
  · split
    · exact hloop _ (hstart _ (hint _ _ (hmode _ _ hy)))
    · exact hstop _ (hloop _ (hstart _ (hint _ _ (hmode _ _ hy))))

theorem example3_continuous_preserves {τ : Type} (D : Driver τ) (Q : τ → Prop)
    (h : D.Preserves Q) (fuel : Nat) (y : τ) (hy : Q y) :
    Q (example3_continuous D fuel y).1 := by
  have hloop := rangingLoop_preserves D Q h fuel 0
  obtain ⟨-, -, hmode, -, hstart, -, -, hstop, -⟩ := h
  unfold example3_continuous
  simp only []
  split
  · exact hmode _ _ hy
  · split
    · exact hloop _ (hstart _ (hmode _ _ hy))
    · exact hstop _ (hloop _ (hstart _ (hmode _ _ hy)))

/-- A property of the world that every driver call keeps holds when `example3`
ends, if it held when `example3` was entered. -/
theorem example3_preserves {τ : Type} (D : Driver τ) (Q : τ → Prop)
    (h : D.Preserves Q) (fuel : Nat) (y : τ) (hy : Q y) : Q (example3 D fuel y).1 := by
  have hauto := example3_autonomous_preserves D Q h fuel
  have hcont := example3_continuous_preserves D Q h fuel
  obtain ⟨halive, hinit, -⟩ := h
  unfold example3
  simp only []
  split
  · exact halive _ hy
  · split
    · exact hinit _ (halive _ hy)
    · have h2 := hauto _ (hinit _ (halive _ hy))
      split
      · exact hcont _ h2
      · exact h2
      · exact h2

/-- C10 on two drivers that report the same frames and agree on `is_alive`,
`init`, `set_ranging_mode` and the second `stop_ranging` (status 7), and differ
in every other status: `example3` returns 7 on both. -/
theorem example3_return_independent_witness :
    steadyOracle.set_integration_time_ms 0 ≠ noisyOracle.set_integration_time_ms 0 ∧
    steadyOracle.stop_ranging 0 ≠ noisyOracle.stop_ranging 0 ∧
    (example3 (oracleDriver steadyOracle) 20 Counts.zero).2 =
      (example3 (oracleDriver noisyOracle) 20 Counts.zero).2 ∧
    (example3 (oracleDriver noisyOracle) 20 Counts.zero).2 = Flow.ret 7 :=
  ⟨by decide, by decide,
    congrArg Prod.snd
      (example3_return_independent steadyOracle noisyOracle 20 rfl rfl rfl rfl
        (fun _ => rfl) rfl).1,
    (example3_return_independent noisyOracle steadyOracle 20 rfl rfl rfl rfl
      (fun _ => rfl) rfl).2 (by decide) rfl rfl rfl rfl (by decide)⟩

/-! ## The device session -/

/-- C3: `set_integration_time(ms)` returns a non-zero status in every session
state whose ranging mode is not autonomous, for every `ms`, and leaves the
session, its integration time included, as it was; this holds in particular in
every state reached from a new session by a script of commands; and a
`set_integration_time(20)` issued directly after `set_ranging_mode(Continuous)`
fails and changes nothing. -/
theorem set_integration_time_requires_autonomous (codes : StatusCodes) :
    (∀ (ms : Nat) (s : Session), s.mode ≠ RangingMode.Autonomous →
      (Session.set_integration_time codes ms s).status ≠ 0 ∧
      (Session.set_integration_time codes ms s).dev = s ∧
      (Session.set_integration_time codes ms s).dev.integration_time = s.integration_time) ∧
    (∀ (identity ms : Nat) (script : List (Command × Bus)),
      (Session.run codes identity Session.new script).mode ≠ RangingMode.Autonomous →
      (Session.set_integration_time codes ms
        (Session.run codes identity Session.new script)).status ≠ 0 ∧
      (Session.set_integration_time codes ms
        (Session.run codes identity Session.new script)).dev.integration_time =
        (Session.run codes identity Session.new script).integration_time) ∧
    (∀ s : Session,
      (Session.set_integration_time codes 20
        (Session.set_ranging_mode codes RangingMode.Continuous s).dev).status ≠ 0 ∧
      (Session.set_integration_time codes 20
        (Session.set_ranging_mode codes RangingMode.Continuous s).dev).dev =
        (Session.set_ranging_mode codes RangingMode.Continuous s).dev) := by
  have hp := codes.protocol_ne_zero
  have key : ∀ (ms : Nat) (s : Session), s.mode ≠ RangingMode.Autonomous →
      (Session.set_integration_time codes ms s).status ≠ 0 ∧
      (Session.set_integration_time codes ms s).dev = s := by
    intro ms s h
    unfold Session.set_integration_time
    rw [if_pos (Or.inl h)]
    exact ⟨hp, rfl⟩
  refine ⟨?_, ?_, ?_⟩
  · intro ms s h
    obtain ⟨h1, h2⟩ := key ms s h
    exact ⟨h1, h2, by rw [h2]⟩
  · intro identity ms script h
    obtain ⟨h1, h2⟩ := key ms _ h
    exact ⟨h1, by rw [h2]⟩
  · intro s
    cases hr : s.ranging with
    | false =>
      apply key
      simp [Session.set_ranging_mode, hr]
    | true =>
      simp [Session.set_ranging_mode, Session.set_integration_time, hr, hp]

/-- C3 on the session reached by a successful `init`, which is in continuous
mode: `set_integration_time(20)` returns the protocol status 255 and the
integration time stays unset. -/
theorem set_integration_time_requires_autonomous_witness :
    (Session.run sampleCodes 240 Session.new [(Command.init, ⟨0, 0⟩)]).mode ≠
      RangingMode.Autonomous ∧
    (Session.set_integration_time sampleCodes 20
      (Session.run sampleCodes 240 Session.new [(Command.init, ⟨0, 0⟩)])).status ≠ 0 ∧
    (Session.set_integration_time sampleCodes 20
      (Session.run sampleCodes 240 Session.new [(Command.init, ⟨0, 0⟩)])).dev.integration_time =
      (Session.run sampleCodes 240 Session.new [(Command.init, ⟨0, 0⟩)]).integration_time :=
  ⟨by decide,
    (set_integration_time_requires_autonomous sampleCodes).2.1 240 20
      [(Command.init, ⟨0, 0⟩)] (by decide)⟩

/-- C4: for every answer of the transport to the identity read, `is_alive`
reports (not alive, status 0) when the read succeeds and the register does not
match; its status is non-zero only when the read failed, and is then the
transport's code; and (not alive, status 0) is reported only for a successful
read of a register that does not match. -/
theorem is_alive_status (identity : Nat) (s : Session) (bus : Bus) :
    (bus.status = 0 → bus.data ≠ identity →
      (Session.is_alive identity s bus).out = 0 ∧ (Session.is_alive identity s bus).status = 0) ∧
    ((Session.is_alive identity s bus).status ≠ 0 →
      bus.status ≠ 0 ∧ (Session.is_alive identity s bus).status = bus.status) ∧
    ((Session.is_alive identity s bus).out = 0 → (Session.is_alive identity s bus).status = 0 →
      bus.status = 0 ∧ bus.data ≠ identity) ∧
    ((Session.is_alive identity s bus).out ≠ 0 ↔ bus.status = 0 ∧ bus.data = identity) := by
  unfold Session.is_alive
  by_cases hb : bus.status = 0
  · by_cases hd : bus.data = identity
    · simp [hb, hd]
    · simp [hb, hd]
  · simp [hb]

/-- C4 on a register that reads 17 where 240 is expected, over a working
transport: not alive, status 0. -/
theorem is_alive_status_witness :
    (Session.is_alive 240 Session.new ⟨0, 17⟩).out = 0 ∧
    (Session.is_alive 240 Session.new ⟨0, 17⟩).status = 0 :=
  (is_alive_status 240 Session.new ⟨0, 17⟩).1 rfl (by decide)

/-- C7: in every session state, and so in every state reached from a new
session by `init` and any script of `start` and `stop` commands, `stop` and
then `stop` again both return status 0, the session after the second is the
session after the first, and ranging is not active in it. -/
theorem stop_idempotent (s : Session) :
    (Session.stop s).status = 0 ∧
    (Session.stop (Session.stop s).dev).status = 0 ∧
    (Session.stop (Session.stop s).dev).dev = (Session.stop s).dev ∧
    (Session.stop s).dev.ranging = false ∧
    (∀ (codes : StatusCodes) (identity : Nat) (script : List (Command × Bus)),
      (∀ cb ∈ script, cb.1 = Command.start ∨ cb.1 = Command.stop) →
      (Session.stop (Session.run codes identity (Session.init s 0).dev script)).status = 0 ∧
      (Session.stop (Session.stop
        (Session.run codes identity (Session.init s 0).dev script)).dev).status = 0 ∧
      (Session.stop (Session.stop
        (Session.run codes identity (Session.init s 0).dev script)).dev).dev =
        (Session.stop (Session.run codes identity (Session.init s 0).dev script)).dev) := by
  have key : ∀ t : Session, (Session.stop t).status = 0 ∧
      (Session.stop (Session.stop t).dev).status = 0 ∧
      (Session.stop (Session.stop t).dev).dev = (Session.stop t).dev ∧
      (Session.stop t).dev.ranging = false := by
    intro t
    cases hr : t.ranging <;> simp [Session.stop, hr]
  obtain ⟨h1, h2, h3, h4⟩ := key s
  refine ⟨h1, h2, h3, h4, ?_⟩
  intro codes identity script _
  obtain ⟨k1, k2, k3, -⟩ := key (Session.run codes identity (Session.init s 0).dev script)
  exact ⟨k1, k2, k3⟩

/-- C7 on the session reached by `init` and `start`, in which ranging is
active: the first `stop` ends ranging, the second changes nothing, both return
0. -/
theorem stop_idempotent_witness :
    rangingSession.ranging = true ∧
    (Session.stop rangingSession).status = 0 ∧
    (Session.stop (Session.stop rangingSession).dev).status = 0 ∧
    (Session.stop (Session.stop rangingSession).dev).dev = (Session.stop rangingSession).dev :=
  ⟨rfl, (stop_idempotent rangingSession).1, (stop_idempotent rangingSession).2.1,
    (stop_idempotent rangingSession).2.2.1⟩

/-! ## Fetches and the frame counter -/

/-- The polling loop adds to the log as many `get_ranging_data` as it adds to
`loop`, and no `stop_ranging`. -/
theorem rangingLoop_traced_counts {σ : Type} (d : Driver σ) (fuel : Nat)
    (x : σ × List (Event σ)) :
    (rangingLoop (traced d) fuel 0 x).2 ≤ 10 ∧
    (calls (rangingLoop (traced d) fuel 0 x).1.2).count Call.get_ranging_data =
      (calls x.2).count Call.get_ranging_data + (rangingLoop (traced d) fuel 0 x).2 ∧
    (calls (rangingLoop (traced d) fuel 0 x).1.2).count Call.stop_ranging =
      (calls x.2).count Call.stop_ranging := by
  refine rangingLoop_inv (traced d)
    (fun l y => l ≤ 10 ∧
      (calls y.2).count Call.get_ranging_data = (calls x.2).count Call.get_ranging_data + l ∧
      (calls y.2).count Call.stop_ranging = (calls x.2).count Call.stop_ranging)
    ?_ fuel 0 x ⟨by omega, rfl, rfl⟩
  intro l y hl hy
  obtain ⟨s, t⟩ := y
  obtain ⟨h1, h2, h3⟩ := hy
  simp only at h2 h3
  have hmod : (l + 1) % 256 = l + 1 := Nat.mod_eq_of_lt (by omega)
  rw [pollOnce_traced]
  split
  · refine ⟨by simp only [hmod]; omega, ?_, ?_⟩
    · simp [calls, Event.of, hmod] at h2 ⊢
      omega
    · simpa [calls, Event.of] using h3
  · refine ⟨h1, ?_, ?_⟩
    · simpa [calls, Event.of] using h2
    · simpa [calls, Event.of] using h3

/-- The autonomous phase either runs to its end, with one `stop_ranging` and
ten `get_ranging_data` more in the log, or ends early with no `stop_ranging`
more. -/
theorem example3_autonomous_traced_counts {σ : Type} (d : Driver σ) (fuel : Nat)
    (x : σ × List (Event σ)) :
    ((example3_autonomous (traced d) fuel x).2 = Flow.next ∧
      (calls (example3_autonomous (traced d) fuel x).1.2).count Call.stop_ranging =
        (calls x.2).count Call.stop_ranging + 1 ∧
      (calls (example3_autonomous (traced d) fuel x).1.2).count Call.get_ranging_data =
        (calls x.2).count Call.get_ranging_data + 10) ∨
    ((example3_autonomous (traced d) fuel x).2 ≠ Flow.next ∧
      (calls (example3_autonomous (traced d) fuel x).1.2).count Call.stop_ranging =
        (calls x.2).count Call.stop_ranging) := by
  simp only [example3_autonomous, traced_set_ranging_mode, traced_set_integration_time_ms,
    traced_start_ranging, traced_stop_ranging, record_dev, record_status]
  generalize d.vl53l5cx_set_ranging_mode RangingMode.Autonomous x.1 = r1
  generalize d.vl53l5cx_set_integration_time_ms 20 r1.dev = r2
  generalize d.vl53l5cx_start_ranging r2.dev = r3
  have hL := rangingLoop_traced_counts d fuel (r3.dev,
    x.2 ++ [Event.of (Call.set_ranging_mode RangingMode.Autonomous) r1] ++
      [Event.of (Call.set_integration_time_ms 20) r2] ++ [Event.of Call.start_ranging r3])
  revert hL
  generalize rangingLoop (traced d) fuel 0 (r3.dev, _) = L
  intro hL
  obtain ⟨h1, h2, h3⟩ := hL
  simp only [calls, List.map_append, List.map_cons, List.map_nil, List.count_append, Event.of]
    at h2 h3
  simp at h2 h3
  split
  · right
    simp [calls, Event.of]
  · split
    · right
      simp [calls, Event.of, h3]
    · left
      have h10 : L.2 = 10 := by omega
      simp [calls, Event.of, h3, h2, h10]

/-- The continuous phase either runs to its end, with one `stop_ranging` and
ten `get_ranging_data` more in the log, or ends early with no `stop_ranging`
more. -/
theorem example3_continuous_traced_counts {σ : Type} (d : Driver σ) (fuel : Nat)
    (x : σ × List (Event σ)) :
    ((calls (example3_continuous (traced d) fuel x).1.2).count Call.stop_ranging =
        (calls x.2).count Call.stop_ranging + 1 ∧
      (calls (example3_continuous (traced d) fuel x).1.2).count Call.get_ranging_data =
        (calls x.2).count Call.get_ranging_data + 10) ∨
    (calls (example3_continuous (traced d) fuel x).1.2).count Call.stop_ranging =
      (calls x.2).count Call.stop_ranging := by
  simp only [example3_continuous, traced_set_ranging_mode, traced_start_ranging,
    traced_stop_ranging, record_dev, record_status]
  generalize d.vl53l5cx_set_ranging_mode RangingMode.Continuous x.1 = r1
  generalize d.vl53l5cx_start_ranging r1.dev = r3
  have hL := rangingLoop_traced_counts d fuel (r3.dev,
    x.2 ++ [Event.of (Call.set_ranging_mode RangingMode.Continuous) r1] ++
      [Event.of Call.start_ranging r3])
  revert hL
  generalize rangingLoop (traced d) fuel 0 (r3.dev, _) = L
  intro hL
  obtain ⟨h1, h2, h3⟩ := hL
  simp only [calls, List.map_append, List.map_cons, List.map_nil, List.count_append, Event.of]
    at h2 h3
  simp at h2 h3
  split
  · right
    simp [calls, Event.of]
  · split
    · right
      simp [calls, Event.of, h3]
    · left
      have h10 : L.2 = 10 := by omega
      simp [calls, Event.of, h3, h2, h10]

/-- A log of `example3` with two `stop_ranging` holds twenty
`get_ranging_data`. -/
theorem example3_two_cycles {σ : Type} (d : Driver σ) (fuel : Nat) (s : σ)
    (h : (calls (example3 (traced d) fuel (s, [])).1.2).count Call.stop_ranging = 2) :
    (calls (example3 (traced d) fuel (s, [])).1.2).count Call.get_ranging_data = 20 := by
  revert h
  simp only [example3, traced_is_alive, traced_init, record_dev, record_status, record_out]
  generalize d.vl53l5cx_is_alive s = r0
  generalize d.vl53l5cx_init r0.dev = r1
  split
  · simp [calls, Event.of]
  · split
    · simp [calls, Event.of]
    · have hA := example3_autonomous_traced_counts d fuel
        (r1.dev, [] ++ [Event.of Call.is_alive r0] ++ [Event.of Call.init r1])
      revert hA
      generalize example3_autonomous (traced d) fuel (r1.dev, _) = A
      intro hA
      have hC := example3_continuous_traced_counts d fuel A.1
      simp only [calls, List.map_append, List.map_cons, List.map_nil, List.count_append,
        Event.of] at hA
      simp at hA
      split
      · rename_i hn
        intro h
        rcases hA with ⟨-, hs, hg⟩ | ⟨hne, -⟩
        · rcases hC with ⟨-, hg'⟩ | hs'
          · simp only [calls] at hg' hg ⊢
            omega
          · simp only [calls] at hs' hs h
            omega
        · exact absurd hn hne
      · rename_i st hn
        intro h
        rcases hA with ⟨hnext, -⟩ | ⟨-, hs⟩
        · rw [hn] at hnext; cases hnext
        · simp only [calls] at hs h
          omega
      · rename_i hn
        intro h
        rcases hA with ⟨hnext, -⟩ | ⟨-, hs⟩
        · rw [hn] at hnext; cases hnext
        · simp only [calls] at hs h
          omega

/-- A logged call that adds 1 to the frame counter when it is a fetch, and
leaves it alone otherwise, keeps `CounterInv`. -/
theorem counterInv_record (c₀ : Nat) (c : Call) (y : (Session × Nat) × List (Event (Session × Nat)))
    (r : Reply (Session × Nat)) (hy : CounterInv c₀ y)
    (hr : r.dev.1.streamcount =
      y.1.1.streamcount + (if c = Call.get_ranging_data then 1 else 0)) :
    CounterInv c₀ (record c y.2 r).dev := by
  obtain ⟨h1, h2, h3⟩ := hy
  have hle : y.1.1.streamcount ≤ r.dev.1.streamcount := by omega
  refine ⟨?_, ?_, ?_⟩
  · simp only [record_dev, streamcounts, List.map_append, List.map_cons, List.map_nil, Event.of]
    rw [← List.cons_append, List.pairwise_append]
    refine ⟨h1, List.pairwise_singleton _ _, ?_⟩
    intro a ha b hb
    simp only [List.mem_singleton] at hb
    subst hb
    exact Nat.le_trans (h2 a ha) hle
  · intro a ha
    simp only [record_dev, streamcounts, List.map_append, List.map_cons, List.map_nil, Event.of,
      ← List.cons_append, List.mem_append, List.mem_singleton] at ha ⊢
    rcases ha with ha | ha
    · exact Nat.le_trans (h2 a ha) hle
    · omega
  · simp only [record_dev, calls, List.map_append, List.map_cons, List.map_nil, Event.of,
      List.count_append, List.count_singleton]
    simp only [calls] at h3
    rw [hr, h3]
    by_cases hc : c = Call.get_ranging_data
    · simp [hc]; omega
    · simp [hc]

/-- Every call of the session driver keeps `CounterInv`: only the fetch moves
the frame counter, by 1. -/
theorem sessionDriver_counter (codes : StatusCodes) (identity : Nat) (env : Nat → Bus)
    (c₀ : Nat) : (traced (sessionDriver codes identity env)).Preserves (CounterInv c₀) := by
  refine ⟨?_, ?_, ?_, ?_, ?_, ?_, ?_, ?_, ?_⟩
  · intro y hy
    rw [traced_is_alive]
    apply counterInv_record c₀ _ y _ hy
    simp only [sessionDriver, Session.is_alive]
    split
    · simp
    · split <;> simp
  · intro y hy
    rw [traced_init]
    apply counterInv_record c₀ _ y _ hy
    simp only [sessionDriver, Session.init]
    split <;> simp
  · intro m y hy
    rw [traced_set_ranging_mode]
    apply counterInv_record c₀ _ y _ hy
    simp only [sessionDriver, Session.set_ranging_mode]
    split <;> simp
  · intro ms y hy
    rw [traced_set_integration_time_ms]
    apply counterInv_record c₀ _ y _ hy
    simp only [sessionDriver, Session.set_integration_time]
    split <;> simp
  · intro y hy
    rw [traced_start_ranging]
    apply counterInv_record c₀ _ y _ hy
    simp only [sessionDriver, Session.start]
    split <;> simp
  · intro y hy
    rw [traced_check_data_ready]
    apply counterInv_record c₀ _ y _ hy
    simp [sessionDriver, Session.check_data_ready]
  · intro y hy
    rw [traced_get_ranging_data]
    apply counterInv_record c₀ _ y _ hy
    simp [sessionDriver, Session.fetch_results]
  · intro y hy
    rw [traced_stop_ranging]
    apply counterInv_record c₀ _ y _ hy
    simp only [sessionDriver, Session.stop]
    split <;> simp
  · intro ms y hy
    rw [traced_WaitMs]
    apply counterInv_record c₀ _ y _ hy
    simp [sessionDriver]

/-- C6: a fetch succeeds and leaves the frame counter at its value before the
call plus exactly 1; `start` and `stop` do not change it; and when `example3`
is run on the session, from any session state, over any transport answers and
for any polling budget, the frame counter never goes down from one call to the
next, and after the two start/stop cycles of `example3` it is its initial
value plus 20. -/
theorem streamcount_counts_fetches (codes : StatusCodes) (identity : Nat) (env : Nat → Bus)
    (fuel : Nat) (s₀ : Session) (k₀ : Nat) :
    (∀ s : Session, (Session.fetch_results s).status = 0 ∧
      (Session.fetch_results s).dev.streamcount = s.streamcount + 1) ∧
    (∀ s : Session, (Session.start codes s).dev.streamcount = s.streamcount ∧
      (Session.stop s).dev.streamcount = s.streamcount) ∧
    (s₀.streamcount :: streamcounts
      (example3 (traced (sessionDriver codes identity env)) fuel ((s₀, k₀), [])).1.2).Pairwise
      (fun a b => a ≤ b) ∧
    ((calls (example3 (traced (sessionDriver codes identity env)) fuel
        ((s₀, k₀), [])).1.2).count Call.stop_ranging = 2 →
      (example3 (traced (sessionDriver codes identity env)) fuel
        ((s₀, k₀), [])).1.1.1.streamcount = s₀.streamcount + 20) := by
  have hinv : CounterInv s₀.streamcount
      (example3 (traced (sessionDriver codes identity env)) fuel ((s₀, k₀), [])).1 :=
    example3_preserves _ _ (sessionDriver_counter codes identity env s₀.streamcount) fuel
      ((s₀, k₀), []) ⟨by simp [streamcounts], by simp [streamcounts], by simp [calls]⟩
  refine ⟨fun s => ⟨rfl, rfl⟩, ?_, hinv.1, ?_⟩
  · intro s
    constructor
    · unfold Session.start; split <;> rfl
    · unfold Session.stop; split <;> rfl
  · intro h
    rw [hinv.2.2, example3_two_cycles _ fuel _ h]

/-- C6 on a new session over a working transport that raises the ready flag at
every third call: `example3` makes its two start/stop cycles and the frame
counter goes from 0 to 20. -/
theorem streamcount_counts_fetches_witness :
    (calls (example3 (traced (sessionDriver sampleCodes 240 sampleEnv)) 40
        ((Session.new, 0), [])).1.2).count Call.stop_ranging = 2 ∧
    (example3 (traced (sessionDriver sampleCodes 240 sampleEnv)) 40
        ((Session.new, 0), [])).1.1.1.streamcount = 20 :=
  ⟨by decide,
    (streamcount_counts_fetches sampleCodes 240 sampleEnv 40 Session.new 0).2.2.2 (by decide)⟩

/-! ## The session follows the call discipline -/

/-- A logged call keeps `Tracks` when, if the discipline allows it, it moves
the session as the discipline expects and is not refused. -/
theorem tracks_record (c : Call) (y : (Session × Nat) × List (Event (Session × Nat)))
    (r : Reply (Session × Nat)) (hy : Tracks y)
    (hr : ∀ m m', Monitor.run Monitor.start y.2 = some m → m.step (Event.of c r) = some m' →
      y.1.1.ranging = m.active → (m.inited = true → y.1.1.initialized = true) →
      r.dev.1.ranging = m'.active ∧ (m'.inited = true → r.dev.1.initialized = true) ∧
      (c ≠ Call.is_alive → c ≠ Call.init → (∀ ms, c ≠ Call.set_integration_time_ms ms) →
        r.status = 0)) :
    Tracks (record c y.2 r).dev := by
  intro m' hrun
  rw [record_dev] at hrun
  simp only [Monitor.run_snoc] at hrun
  cases hm : Monitor.run Monitor.start y.2 with
  | none => simp [hm] at hrun
  | some m =>
    simp only [hm, Option.bind_some] at hrun
    obtain ⟨h1, h2, h3⟩ := hy m hm
    obtain ⟨k1, k2, k3⟩ := hr m m' hm hrun h1 h2
    refine ⟨k1, k2, ?_⟩
    intro e he
    simp only [record_dev, List.mem_append, List.mem_singleton] at he
    rcases he with he | he
    · exact h3 e he
    · subst he
      exact k3

/-- Every call of the session driver keeps `Tracks`. -/
theorem sessionDriver_tracks (codes : StatusCodes) (identity : Nat) (env : Nat → Bus) :
    (traced (sessionDriver codes identity env)).Preserves Tracks := by
  refine ⟨?_, ?_, ?_, ?_, ?_, ?_, ?_, ?_, ?_⟩
  · intro y hy
    rw [traced_is_alive]
    apply tracks_record _ y _ hy
    intro m m' _ hstep h1 h2
    simp [Monitor.step, Event.of] at hstep
    subst hstep
    simp only [sessionDriver, Session.is_alive]
    split
    · simpa using ⟨h1, h2⟩
    · split <;> simpa using ⟨h1, h2⟩
  · intro y hy
    rw [traced_init]
    apply tracks_record _ y _ hy
    intro m m' _ hstep h1 h2
    simp [Monitor.step, Event.of] at hstep
    obtain ⟨-, hstep⟩ := hstep
    subst hstep
    simp only [sessionDriver, Session.init]
    split
    · rename_i hb
      simpa [hb] using h1
    · simpa using h1
  · intro mode y hy
    rw [traced_set_ranging_mode]
    apply tracks_record _ y _ hy
    intro m m' _ hstep h1 h2
    simp [Monitor.step, Event.of] at hstep
    obtain ⟨ha, hstep⟩ := hstep
    subst hstep
    simp [sessionDriver, Session.set_ranging_mode, h1, ha]
    exact h2
  · intro ms y hy
    rw [traced_set_integration_time_ms]
    apply tracks_record _ y _ hy
    intro m m' _ hstep h1 h2
    simp [Monitor.step, Event.of] at hstep
    obtain ⟨ha, hstep⟩ := hstep
    subst hstep
    rw [ha] at h1
    simp only [sessionDriver, Session.set_integration_time]
    split
    · simp [ha, h1]
      exact h2
    · simp [ha, h1]
      exact h2
  · intro y hy
    rw [traced_start_ranging]
    apply tracks_record _ y _ hy
    intro m m' _ hstep h1 h2
    simp [Monitor.step, Event.of] at hstep
    obtain ⟨⟨hi, ha⟩, hstep⟩ := hstep
    subst hstep
    simp [sessionDriver, Session.start, h2 hi]
  · intro y hy
    rw [traced_check_data_ready]
    apply tracks_record _ y _ hy
    intro m m' _ hstep h1 h2
    simp [Monitor.step, Event.of] at hstep
    subst hstep
    simpa [sessionDriver, Session.check_data_ready] using ⟨h1, h2⟩
  · intro y hy
    rw [traced_get_ranging_data]
    apply tracks_record _ y _ hy
    intro m m' _ hstep h1 h2
    simp [Monitor.step, Event.of] at hstep
    obtain ⟨-, hstep⟩ := hstep
    subst hstep
    simpa [sessionDriver, Session.fetch_results] using ⟨h1, h2⟩
  · intro y hy
    rw [traced_stop_ranging]
    apply tracks_record _ y _ hy
    intro m m' _ hstep h1 h2
    simp [Monitor.step, Event.of] at hstep
    obtain ⟨ha, hstep⟩ := hstep
    subst hstep
    simp [sessionDriver, Session.stop, h1, ha]
    exact h2
  · intro ms y hy
    rw [traced_WaitMs]
    apply tracks_record _ y _ hy
    intro m m' _ hstep h1 h2
    simp [Monitor.step, Event.of] at hstep
    subst hstep
    simpa [sessionDriver] using ⟨h1, h2⟩

/-- Run on the session from a state in which ranging is stopped, `example3`
has none of its `set_ranging_mode`, `start_ranging`, `check_data_ready`,
`get_ranging_data`, `stop_ranging` calls refused. -/
theorem example3_session_not_refused (codes : StatusCodes) (identity : Nat) (env : Nat → Bus)
    (fuel : Nat) (s₀ : Session) (k₀ : Nat) (h₀ : s₀.ranging = false) :
    ∀ e ∈ (example3 (traced (sessionDriver codes identity env)) fuel ((s₀, k₀), [])).1.2,
      e.call ≠ Call.is_alive → e.call ≠ Call.init →
      (∀ ms, e.call ≠ Call.set_integration_time_ms ms) → e.status = 0 := by
  have hT : Tracks (example3 (traced (sessionDriver codes identity env)) fuel
      ((s₀, k₀), [])).1 := by
    apply example3_preserves _ _ (sessionDriver_tracks codes identity env)
    intro m hm
    simp [Monitor.run_nil] at hm
    subst hm
    simp [Monitor.start, h₀]
  obtain ⟨m, hm, -⟩ := Monitor.run_example3 (sessionDriver codes identity env) fuel (s₀, k₀)
  exact (hT m hm).2.2

/-- C5: `set_ranging_mode(mode)` returns a non-zero status in every session
state in which ranging is active, for both modes, and leaves the session, its
mode included, as it was; it returns 0 only when ranging is stopped, and then
the session is in the mode asked for; issued after `stop` it succeeds, issued
after a successful `start` it fails; and when `example3` is run on a session in
which ranging is stopped, over any transport answers, none of its
`set_ranging_mode` calls is refused: each is issued with ranging stopped, the
switch to continuous mode after the `stop_ranging` of the autonomous phase. -/
theorem set_ranging_mode_requires_stopped (codes : StatusCodes) (mode : RangingMode)
    (s : Session) :
    (s.ranging = true →
      (Session.set_ranging_mode codes mode s).status ≠ 0 ∧
      (Session.set_ranging_mode codes mode s).dev = s ∧
      (Session.set_ranging_mode codes mode s).dev.mode = s.mode) ∧
    ((Session.set_ranging_mode codes mode s).status = 0 →
      s.ranging = false ∧ (Session.set_ranging_mode codes mode s).dev.mode = mode) ∧
    ((Session.set_ranging_mode codes mode (Session.stop s).dev).status = 0 ∧
      (Session.set_ranging_mode codes mode (Session.stop s).dev).dev.mode = mode) ∧
    ((Session.start codes s).status = 0 →
      (Session.set_ranging_mode codes mode (Session.start codes s).dev).status ≠ 0) ∧
    (s.ranging = false → ∀ (identity : Nat) (env : Nat → Bus) (fuel k₀ : Nat),
      ∀ e ∈ (example3 (traced (sessionDriver codes identity env)) fuel ((s, k₀), [])).1.2,
        ∀ mode', e.call = Call.set_ranging_mode mode' → e.status = 0) := by
  have hp := codes.protocol_ne_zero
  refine ⟨?_, ?_, ?_, ?_, ?_⟩
  · intro h
    simp [Session.set_ranging_mode, h, hp]
  · intro h
    cases hr : s.ranging with
    | false => simp [Session.set_ranging_mode, hr]
    | true => simp [Session.set_ranging_mode, hr, hp] at h
  · cases hr : s.ranging <;> simp [Session.set_ranging_mode, Session.stop, hr]
  · cases hi : s.initialized with
    | false => simp [Session.start, hi, hp]
    | true => simp [Session.start, Session.set_ranging_mode, hi, hp]
  · intro h₀ identity env fuel k₀ e he mode' hcall
    apply example3_session_not_refused codes identity env fuel s k₀ h₀ e he
    · rw [hcall]; intro h; cases h
    · rw [hcall]; intro h; cases h
    · intro ms; rw [hcall]; intro h; cases h

/-- C5 on the session reached by `init` and `start`: ranging is active and the
switch to autonomous mode is refused and changes nothing. -/
theorem set_ranging_mode_requires_stopped_witness :
    rangingSession.ranging = true ∧
    (Session.set_ranging_mode sampleCodes RangingMode.Autonomous rangingSession).status ≠ 0 ∧
    (Session.set_ranging_mode sampleCodes RangingMode.Autonomous rangingSession).dev =
      rangingSession :=
  ⟨rfl,
    ((set_ranging_mode_requires_stopped sampleCodes RangingMode.Autonomous rangingSession).1
      rfl).1,
    ((set_ranging_mode_requires_stopped sampleCodes RangingMode.Autonomous rangingSession).1
      rfl).2.1⟩

end VL53L5CX
